import Mathlib

/-!
Verification development for the motion execution core of TinyG2
(`src/TinyG2/plan_exec.cpp`): the group-aware forward planner
(`mp_plan_move`, `_attempt_extension`), the segment executor
(`mp_exec_move`, `mp_exec_aline` and its head/body/tail/segment helpers)
and the quintic-Bezier forward-difference initializer
(`_init_forward_diffs`).

The C code is shallowly embedded over exact rationals (the C sources use
`float`; every claim under study is about the algebraic content of the
computation, and the relevant spec clauses state their properties in exact
arithmetic or "to within epsilon").  Pointer-linked planner buffers are
embedded as a list of records indexed by `Nat`, with `nx`/`pv` as index
`+1`/`-1`; the two block-runtime slots and two group-runtime slots are
embedded as pairs of records with a boolean index, so the executor's
pointer swaps become boolean toggles.  Calls to external collaborators
(stepper prep, encoders, kinematics, status reports, `__asm__("BKPT")`
debug traps) are recorded as event counters in the state; `while(1)`
dead-loops in the source are embedded as an `Option.none` result
(divergence).
-/

/-! ## Floating point comparison helpers and tunables

Modelled from the spec: `EPSILON` and the `fp_ZERO / fp_EQ / fp_NE / fp_GE`
comparison helpers, and the `NOM_SEGMENT_USEC` / `MIN_SEGMENT_TIME`
tunables, live in `util.h` / `planner.h` which are not under `src/`; the
spec (section 6) describes them as an epsilon comparison scheme and
compile-time constants (nominal segment duration e.g. 5000 microseconds,
with a hard minimum floor). -/

def EPSILON : ℚ := 1/100000

def fp_ZERO (a : ℚ) : Bool := |a| < EPSILON

def fp_EQ (a b : ℚ) : Bool := |a - b| < EPSILON

def fp_NE (a b : ℚ) : Bool := ¬ (|a - b| < EPSILON)

def fp_GE (a b : ℚ) : Bool := (a - b) > -EPSILON

def NOM_SEGMENT_USEC : ℚ := 5000

def MIN_SEGMENT_TIME : ℚ := 1/1000

/-- uSec(t): convert seconds to microseconds. -/
def uSec (t : ℚ) : ℚ := t * 1000000

/-! ## Forward difference initialization (`_init_forward_diffs`) -/

/-- The five forward-difference registers `mr.forward_diff_5 ..
forward_diff_1` together with `mr.segment_velocity`, the fields of the
motion runtime written by `_init_forward_diffs`. -/
structure FwdDiffs where
  d5 : ℚ
  d4 : ℚ
  d3 : ℚ
  d2 : ℚ
  d1 : ℚ
  segment_velocity : ℚ

/-- Shallow embedding of `_init_forward_diffs` (plan_exec.cpp lines
1297-1363, the `USE_OLD_FORWARD_DIFFS == 0` version).  The global read of
`mr.segments` is passed explicitly as `segments`; the writes to
`mr.forward_diff_*` and `mr.segment_velocity` are the returned record.
The decimal float literals of the source (`0.2`, `0.05`, `7.5625`, ...)
are their exact rational values. -/
def init_forward_diffs (v_0 v_1 a_0 a_1 j_0 j_1 T segments : ℚ) : FwdDiffs :=
  let fifth_T        := T * (1/5)
  let two_fifths_T   := T * (2/5)
  let twentienth_T_2 := T * T * (1/20)
  let P_0 := v_0
  let P_1 := v_0 + fifth_T*a_0
  let P_2 := v_0 + two_fifths_T*a_0 + twentienth_T_2*j_0
  let P_3 := v_1 - two_fifths_T*a_1 + twentienth_T_2*j_1
  let P_4 := v_1 - fifth_T*a_1
  let P_5 := v_1
  let A :=  5*( P_1 - P_4 + 2*(P_3 - P_2) ) +   P_5 - P_0
  let B :=  5*( P_0 + P_4 - 4*(P_3 + P_1)   + 6*P_2 )
  let C := 10*( P_3 - P_0 + 3*(P_1 - P_2) )
  let D := 10*( P_0 + P_2 - 2*P_1 )
  let E :=  5*( P_1 - P_0 )
  let h   := 1/segments
  let h_2 := h   * h
  let h_3 := h_2 * h
  let h_4 := h_3 * h
  let h_5 := h_4 * h
  let Ah_5 := A * h_5
  let Bh_4 := B * h_4
  let Ch_3 := C * h_3
  let Dh_2 := D * h_2
  let Eh   := E * h
  let const1 : ℚ := 121/16
  let const2 : ℚ := 13/4
  let const3 : ℚ := 165/2
  let half_h   := h * (1/2)
  let half_h_2 := half_h   * half_h
  let half_h_3 := half_h_2 * half_h
  let half_h_4 := half_h_3 * half_h
  let half_h_5 := half_h_4 * half_h
  let half_Eh   := E * half_h
  let half_Dh_2 := D * half_h_2
  let half_Ch_3 := C * half_h_3
  let half_Bh_4 := B * half_h_4
  let half_Ah_5 := A * half_h_5
  { d5 := const1*Ah_5 +  5*Bh_4 + const2*Ch_3 + 2*Dh_2 + Eh
    d4 := const3*Ah_5 + 29*Bh_4 +      9*Ch_3 + 2*Dh_2
    d3 :=    255*Ah_5 + 48*Bh_4 +      6*Ch_3
    d2 :=    300*Ah_5 + 24*Bh_4
    d1 :=    120*Ah_5
    segment_velocity := half_Ah_5 + half_Bh_4 + half_Ch_3 + half_Dh_2 + half_Eh + v_0 }

/-- Shallow embedding of the original cubic-form `_init_forward_diffs`
(plan_exec.cpp lines 1261-1292, the `USE_OLD_FORWARD_DIFFS == 1` version),
which ignores the boundary accelerations and jerks. -/
def init_forward_diffs_old (Vi Vt _a_0 _a_1 _j_0 _j_1 _T segments : ℚ) : FwdDiffs :=
  let A :=  -6*Vi +  6*Vt
  let B :=  15*Vi - 15*Vt
  let C := -10*Vi + 10*Vt
  let h := 1/segments
  let Ah_5 := A * h * h * h * h * h
  let Bh_4 := B * h * h * h * h
  let Ch_3 := C * h * h * h
  let half_h := h/2
  let half_Ch_3 := C * half_h * half_h * half_h
  let half_Bh_4 := B * half_h * half_h * half_h * half_h
  let half_Ah_5 := A * half_h * half_h * half_h * half_h * half_h
  { d5 := (121/16)*Ah_5 + 5*Bh_4 + (13/4)*Ch_3
    d4 := (165/2)*Ah_5 + 29*Bh_4 + 9*Ch_3
    d3 := 255*Ah_5 + 48*Bh_4 + 6*Ch_3
    d2 := 300*Ah_5 + 24*Bh_4
    d1 := 120*Ah_5
    segment_velocity := half_Ah_5 + half_Bh_4 + half_Ch_3 + Vi }

/-- The quintic Bezier velocity curve through control points `P_0 .. P_5`
in Bernstein form (plan_exec.cpp comment, lines 1041-1053). -/
def bezierV (P_0 P_1 P_2 P_3 P_4 P_5 t : ℚ) : ℚ :=
  P_0*(1-t)^5 + 5*P_1*(1-t)^4*t + 10*P_2*(1-t)^3*t^2
    + 10*P_3*(1-t)^2*t^3 + 5*P_4*(1-t)*t^4 + P_5*t^5

/-- Power-basis coefficient `A` (of `t^5`) of the quintic Bezier. -/
def coefA (P_0 P_1 P_2 P_3 P_4 P_5 : ℚ) : ℚ :=
  -P_0 + 5*P_1 - 10*P_2 + 10*P_3 - 5*P_4 + P_5

/-- Power-basis coefficient `B` (of `t^4`) of the quintic Bezier. -/
def coefB (P_0 P_1 P_2 P_3 P_4 _P_5 : ℚ) : ℚ :=
  5*P_0 - 20*P_1 + 30*P_2 - 20*P_3 + 5*P_4

/-- Power-basis coefficient `C` (of `t^3`) of the quintic Bezier. -/
def coefC (P_0 P_1 P_2 P_3 _P_4 _P_5 : ℚ) : ℚ :=
  -10*P_0 + 30*P_1 - 30*P_2 + 10*P_3

/-- Power-basis coefficient `D` (of `t^2`) of the quintic Bezier. -/
def coefD (P_0 P_1 P_2 _P_3 _P_4 _P_5 : ℚ) : ℚ :=
  10*P_0 - 20*P_1 + 10*P_2

/-- Power-basis coefficient `E` (of `t`) of the quintic Bezier. -/
def coefE (P_0 P_1 _P_2 _P_3 _P_4 _P_5 : ℚ) : ℚ :=
  -5*P_0 + 5*P_1

/-- Power-basis coefficient `F` (the constant term) of the quintic
Bezier. -/
def coefF (P_0 _P_1 _P_2 _P_3 _P_4 _P_5 : ℚ) : ℚ := P_0

/-- The expanded polynomial `V(t) = A t^5 + B t^4 + C t^3 + D t^2 + E t + F`. -/
def Vpoly (A B C D E F t : ℚ) : ℚ :=
  A*t^5 + B*t^4 + C*t^3 + D*t^2 + E*t + F

/-! ## Data model: enums -/

/-- Buffer states of a planner queue entry (`EMPTY < PREPPED < PLANNED <
RUNNING`, spec section 3). -/
inductive BufferState
  | empty
  | prepped
  | planned
  | running
  deriving DecidableEq

/-- Numeric rank of a `BufferState`, for the `<` comparisons of the
source. -/
def BufferState.rank : BufferState → Nat
  | .empty => 0
  | .prepped => 1
  | .planned => 2
  | .running => 3

/-- Move states (`MOVE_OFF`, `MOVE_NEW`, `MOVE_RUN`). -/
inductive MoveSt
  | off
  | new
  | run
  deriving DecidableEq

/-- Move types; only alines are in scope, all other types dispatch away. -/
inductive MoveType
  | aline
  | other
  deriving DecidableEq

/-- Sections of a move (`SECTION_HEAD`, `SECTION_BODY`, `SECTION_TAIL`). -/
inductive Sec
  | head
  | body
  | tail
  deriving DecidableEq

/-- Section states (`SECTION_OFF`, `SECTION_NEW`, `SECTION_1st_HALF`,
`SECTION_2nd_HALF`). -/
inductive SecState
  | off
  | new
  | firstHalf
  | secondHalf
  deriving DecidableEq

/-- Group states (`GROUP_OFF`, `GROUP_RAMPED`, `GROUP_HEAD`, `GROUP_BODY`,
`GROUP_TAIL`, `GROUP_DONE`). -/
inductive GroupState
  | off
  | ramped
  | head
  | body
  | tail
  | done
  deriving DecidableEq

/-- Numeric rank of a `GroupState` for the `>` comparison at
plan_exec.cpp line 461. -/
def GroupState.rank : GroupState → Nat
  | .off => 0
  | .ramped => 1
  | .head => 2
  | .body => 3
  | .tail => 4
  | .done => 5

/-- Machine motion states (`MOTION_STOP`, `MOTION_RUN`, `MOTION_HOLD`). -/
inductive MotionState
  | stop
  | run
  | hold
  deriving DecidableEq

/-- Feedhold states. -/
inductive HoldState
  | off
  | sync
  | decelContinue
  | decelToZero
  | decelEnd
  | pending
  | hold
  deriving DecidableEq

/-- Return statuses of the executor and planner routines (`STAT_OK`,
`STAT_EAGAIN`, `STAT_NOOP`). -/
inductive Stat
  | ok
  | eagain
  | noop
  deriving DecidableEq

/-! ## Data model: records -/

/-- A block runtime buffer (`mpBlockRuntimeBuf_t`): the per-move
head/body/tail dispersal the planner writes and the executor consumes.
Two instances exist (`mr.r` and `mr.p`). -/
structure BlockRt where
  head_length : ℚ
  body_length : ℚ
  tail_length : ℚ
  head_time : ℚ
  body_time : ℚ
  tail_time : ℚ
  cruise_velocity : ℚ
  exit_velocity : ℚ
  cruise_acceleration : ℚ
  exit_acceleration : ℚ
  cruise_jerk : ℚ
  exit_jerk : ℚ
  planned : Bool

/-- A group runtime buffer (`mpGroupRuntimeBuf_t`).  Two instances exist
(`mr.r_group` and `mr.p_group`); `first_block` is the queue index of the
group's first block. -/
structure GroupRt where
  group_state : GroupState
  first_block : Nat
  length : ℚ
  head_length : ℚ
  body_length : ℚ
  tail_length : ℚ
  completed_group_head_length : ℚ
  completed_group_body_length : ℚ
  cruise_velocity : ℚ
  exit_velocity : ℚ
  body_time : ℚ
  tail_time : ℚ
  length_into_section : ℚ
  t_into_section : ℚ

/-- A planner queue entry (`mpBuf_t`).  The ring's `nx`/`pv` links are the
index successor/predecessor; `nx_group`/`pv_group` are explicit indices.
`bf_func_null` records whether the move callback pointer is NULL.  The
G-code model state `gm` carried by the buffer is represented by its
target vector. -/
structure Buf where
  buffer_state : BufferState
  move_state : MoveSt
  move_type : MoveType
  bf_func_null : Bool
  plannable : Bool
  length : ℚ
  move_time : ℚ
  group_length : ℚ
  cruise_vmax : ℚ
  exit_vmax : ℚ
  cruise_velocity : ℚ
  exit_velocity : ℚ
  jerk : ℚ
  jerk_sq : ℚ
  recip_jerk : ℚ
  sqrt_j : ℚ
  q_recip_2_sqrt_j : ℚ
  unit : List ℚ
  gm_target : List ℚ
  axis_flags : List ℚ
  nx_group : Nat
  pv_group : Nat

/-- The all-zero, `EMPTY`, non-aline queue entry. -/
def buf0 : Buf :=
  { buffer_state := .empty, move_state := .off, move_type := .other
    bf_func_null := true, plannable := false
    length := 0, move_time := 0, group_length := 0
    cruise_vmax := 0, exit_vmax := 0, cruise_velocity := 0, exit_velocity := 0
    jerk := 0, jerk_sq := 0, recip_jerk := 0, sqrt_j := 0, q_recip_2_sqrt_j := 0
    unit := [], gm_target := [], axis_flags := []
    nx_group := 0, pv_group := 0 }

instance bufInhabited : Inhabited Buf := ⟨buf0⟩

/-- The whole shared state: the planner queue, the runtime singleton `mr`
(with its two block-runtime and two group-runtime slots), the canonical
machine fields read by this file (`cm.motion_state`, `cm.hold_state`),
`mb.run_time_remaining`, and counters recording calls to external
collaborators (stepper prep, plan requests, exception reports, debug
traps, status report requests, buffer frees, cycle ends). -/
structure St where
  bufs : List Buf
  run_buf : Option Nat
  -- the two block runtime slots; mr.r is slot `rIdx`, mr.p the other
  blkA : BlockRt
  blkB : BlockRt
  rIdx : Bool
  -- the two group runtime slots; mr.r_group is slot `rgIdx`, mr.p_group the other
  grpA : GroupRt
  grpB : GroupRt
  rgIdx : Bool
  -- mr scalar state
  mr_move_state : MoveSt
  mr_section : Sec
  section_state : SecState
  mr_jerk : ℚ
  entry_velocity : ℚ
  entry_acceleration : ℚ
  entry_jerk : ℚ
  group_entry_velocity : ℚ
  segments : ℚ
  segment_time : ℚ
  segment_count : Nat
  segment_velocity : ℚ
  fd5 : ℚ
  fd4 : ℚ
  fd3 : ℚ
  fd2 : ℚ
  fd1 : ℚ
  executed_body_length : ℚ
  executed_body_time : ℚ
  position : List ℚ
  target : List ℚ
  unit : List ℚ
  axis_flags : List ℚ
  gm_target : List ℚ
  wp_head : List ℚ
  wp_body : List ℚ
  wp_tail : List ℚ
  position_steps : List ℚ
  target_steps : List ℚ
  commanded_steps : List ℚ
  encoder_steps : List ℚ
  following_error : List ℚ
  -- canonical machine / planner singleton fields
  motion_state : MotionState
  hold_state : HoldState
  run_time_remaining : ℚ
  -- event counters for calls to external collaborators
  preps : Nat
  prep_nulls : Nat
  plan_requests : Nat
  exceptions : Nat
  bkpts : Nat
  traps : Nat
  sr_requests : Nat
  time_accountings : Nat
  freed : Nat
  cycle_ends : Nat

/-- Fetch queue entry `i` (out-of-range reads return the default
buffer). -/
def bufGet (s : St) (i : Nat) : Buf := s.bufs.getD i default

/-- Update queue entry `i` in place. -/
def bufSet (s : St) (i : Nat) (f : Buf → Buf) : St :=
  { s with bufs := s.bufs.set i (f (bufGet s i)) }

/-- The running block runtime `mr.r`. -/
def getR (s : St) : BlockRt := if s.rIdx then s.blkA else s.blkB

/-- The planning block runtime `mr.p`. -/
def getP (s : St) : BlockRt := if s.rIdx then s.blkB else s.blkA

/-- Write `mr.r`. -/
def setR (s : St) (b : BlockRt) : St :=
  if s.rIdx then { s with blkA := b } else { s with blkB := b }

/-- Write `mr.p`. -/
def setP (s : St) (b : BlockRt) : St :=
  if s.rIdx then { s with blkB := b } else { s with blkA := b }

/-- The running group runtime `mr.r_group`. -/
def getRG (s : St) : GroupRt := if s.rgIdx then s.grpA else s.grpB

/-- The planning group runtime `mr.p_group`. -/
def getPG (s : St) : GroupRt := if s.rgIdx then s.grpB else s.grpA

/-- Write `mr.r_group`. -/
def setRG (s : St) (g : GroupRt) : St :=
  if s.rgIdx then { s with grpA := g } else { s with grpB := g }

/-- Write `mr.p_group`. -/
def setPG (s : St) (g : GroupRt) : St :=
  if s.rgIdx then { s with grpB := g } else { s with grpA := g }

/-- Read a group slot: `true` selects the running group. -/
def getGrp (s : St) (isR : Bool) : GroupRt := if isR then getRG s else getPG s

/-- Write a group slot: `true` selects the running group. -/
def setGrp (s : St) (isR : Bool) (g : GroupRt) : St :=
  if isR then setRG s g else setPG s g

/-- Record a `__asm__("BKPT")` debug breakpoint (the debugger trap fires
and, on a bare run, execution falls through to the next statement). -/
def bkpt (s : St) : St := { s with bkpts := s.bkpts + 1 }

/-- Record a `_debug_trap()` call. -/
def dtrap (s : St) : St := { s with traps := s.traps + 1 }

/-- Record an `rpt_exception(...)` call. -/
def rptException (s : St) : St := { s with exceptions := s.exceptions + 1 }

/-! ## External collaborators of the executor

Kinematics (`kn_inverse_kinematics`), encoder sampling
(`en_read_encoder`) and stepper prep are out of scope per the spec
(section 1); they are passed in as parameters.  `st_prep_line` is modeled
as always succeeding (its failure path merely propagates its status) and
is recorded in the `preps` counter. -/

structure Collab where
  /-- `kn_inverse_kinematics(target, target_steps)`: target position to
  motor steps. -/
  kin : List ℚ → List ℚ
  /-- `en_read_encoder(motor)`. -/
  enc : Nat → ℚ
  /-- result of `mp_free_run_buffer()`: true when the planner queue is
  empty after the free. -/
  free_empties : Bool

/-! ## Short-section merging (plan_exec.cpp lines 763-839) -/

/-- Fold a too-brief head into the body (plan_exec.cpp lines 765-773). -/
def foldShortHead (r : BlockRt) : BlockRt :=
  if (¬ fp_ZERO r.head_length) ∧ r.head_time < MIN_SEGMENT_TIME then
    { r with body_time := r.body_time + r.head_length / r.cruise_velocity
             head_time := 0
             body_length := r.body_length + r.head_length
             head_length := 0 }
  else r

/-- Fold a too-brief tail into the body (plan_exec.cpp lines 774-782). -/
def foldShortTail (r : BlockRt) : BlockRt :=
  if (¬ fp_ZERO r.tail_length) ∧ r.tail_time < MIN_SEGMENT_TIME then
    { r with body_time := r.body_time + r.tail_length / r.cruise_velocity
             tail_time := 0
             body_length := r.body_length + r.tail_length
             tail_length := 0 }
  else r

/-- Distribute (or discard) a body that is still too brief
(plan_exec.cpp lines 788-839).  `ev` is `mr.entry_velocity`.  Returns
`none` for the `while(1)` dead loop on an all-body move that is too
short (line 837). -/
def mergeBody (ev : ℚ) (r : BlockRt) : Option BlockRt :=
  if (¬ fp_ZERO r.body_length) ∧ r.body_time < MIN_SEGMENT_TIME then
    if ¬ fp_ZERO r.cruise_jerk then
      -- incomplete head/tail remnant: discard the body, the encoders
      -- will catch the position back up
      some { r with body_length := 0, body_time := 0 }
    else if r.tail_length > 0 then
      if r.head_length > 0 then
        let body_split := r.body_length / 2
        some { r with body_length := 0
                      head_length := r.head_length + body_split
                      tail_length := r.tail_length + body_split
                      head_time := r.head_time + (2 * body_split) / (ev + r.cruise_velocity)
                      tail_time := r.tail_time + (2 * body_split) / (r.cruise_velocity + r.exit_velocity)
                      body_time := 0 }
      else
        some { r with tail_length := r.tail_length + r.body_length
                      tail_time := r.tail_time + (2 * r.body_length) / (r.cruise_velocity + r.exit_velocity)
                      body_length := 0
                      body_time := 0 }
    else if r.head_length > 0 then
      -- note: the source zeroes only body_length here, not body_time
      some { r with head_length := r.head_length + r.body_length
                    head_time := r.head_time + (2 * r.body_length) / (ev + r.cruise_velocity)
                    body_length := 0 }
    else
      none
  else some r

/-- The complete short-section merge performed by `mp_exec_aline`'s
new-move setup on `mr.r` (plan_exec.cpp lines 763-839). -/
def mergeShortSections (ev : ℚ) (r : BlockRt) : Option BlockRt :=
  mergeBody ev (foldShortTail (foldShortHead r))

/-- Whether the merge discards the body: after the head and tail folds
the body is still non-zero and too brief while `cruise_jerk` is non-zero
(plan_exec.cpp lines 788-797). -/
def bodyDiscarded (r : BlockRt) : Bool :=
  let r2 := foldShortTail (foldShortHead r)
  (¬ fp_ZERO r2.body_length) ∧ r2.body_time < MIN_SEGMENT_TIME ∧ ¬ fp_ZERO r2.cruise_jerk

/-- Total section length of a block runtime. -/
def totalLength (r : BlockRt) : ℚ := r.head_length + r.body_length + r.tail_length

/-! ## Segment runner (`_exec_aline_segment`, plan_exec.cpp lines 1585-1635) -/

/-- The section-end waypoint for the current section. -/
def wpOf (s : St) : Sec → List ℚ
  | .head => s.wp_head
  | .body => s.wp_body
  | .tail => s.wp_tail

/-- Shallow embedding of `_exec_aline_segment`.  Returns `true` exactly
when the decremented `segment_count` reaches zero (`STAT_OK`: the
section has run all its segments), `false` for `STAT_EAGAIN`.
`travel_steps` is computed only to be handed to `st_prep_line` and is
not part of the retained state; the prep call is recorded in `preps`. -/
def exec_aline_segment (ext : Collab) (s : St) : Bool × St :=
  -- (--mr.segment_count == 0): test against the pre-decrement value
  let isLast := s.segment_count = 1
  let s := { s with segment_count := s.segment_count - 1 }
  let tgt :=
    if isLast ∧ s.section_state = .secondHalf ∧ s.motion_state ≠ .hold then
      wpOf s s.mr_section
    else
      let segment_length := s.segment_velocity * s.segment_time
      List.zipWith (fun p u => p + u * segment_length) s.position s.unit
  let s := { s with gm_target := tgt }
  let s := { s with
    commanded_steps := s.position_steps
    position_steps := s.target_steps
    encoder_steps := (List.range s.position_steps.length).map ext.enc }
  let s := { s with
    following_error := List.zipWith (fun e c => e - c) s.encoder_steps s.commanded_steps }
  let s := { s with target_steps := ext.kin s.gm_target }
  let rtr := s.run_time_remaining - s.segment_time
  let s := { s with run_time_remaining := if rtr < 0 then 0 else rtr }
  let s := { s with preps := s.preps + 1 }
  let s := { s with position := s.gm_target }
  (isLast, s)

/-! ## Section runners (`_exec_aline_head` / `_exec_aline_body` /
`_exec_aline_tail`, plan_exec.cpp lines 1371-1563) -/

/-- Install the result of `_init_forward_diffs` into the runtime. -/
def applyFwdDiffs (s : St) (fd : FwdDiffs) : St :=
  { s with fd5 := fd.d5, fd4 := fd.d4, fd3 := fd.d3, fd2 := fd.d2, fd1 := fd.d1
           segment_velocity := fd.segment_velocity }

/-- The forward-difference register cascade `F_5 += F_4; ...; F_2 += F_1`. -/
def fdCascade (s : St) : St :=
  { s with fd5 := s.fd5 + s.fd4, fd4 := s.fd4 + s.fd3
           fd3 := s.fd3 + s.fd2, fd2 := s.fd2 + s.fd1 }

/-- Segment bookkeeping on section entry: `mr.segments`,
`mr.segment_time`, `mr.segment_count` from a section time. -/
def sectionSegments (s : St) (sectionTime : ℚ) : St :=
  let segs : ℚ := (Int.ceil (uSec sectionTime / NOM_SEGMENT_USEC) : ℚ)
  { s with segments := segs
           segment_time := sectionTime / segs
           segment_count := (Int.ceil (uSec sectionTime / NOM_SEGMENT_USEC)).toNat }

/-- The `SECTION_1st_HALF` / `SECTION_2nd_HALF` part of
`_exec_aline_tail` (plan_exec.cpp lines 1538-1562). -/
def tailRun (ext : Collab) (s : St) : Stat × St :=
  if s.section_state = .firstHalf then
    let (done, s) := exec_aline_segment ext s
    if done then (.ok, { s with section_state := .secondHalf })
    else (.eagain, { s with section_state := .secondHalf })
  else if s.section_state = .secondHalf then
    let s := { s with segment_velocity := s.segment_velocity + s.fd5 }
    let (done, s) := exec_aline_segment ext s
    if done then (.ok, s)
    else (.eagain, fdCascade s)
  else (.eagain, s)

/-- Shallow embedding of `_exec_aline_tail` (plan_exec.cpp lines
1501-1563).  `i` is the index of the `bf` argument. -/
def exec_aline_tail (ext : Collab) (i : Nat) (s : St) : Stat × St :=
  if s.section_state = .new then
    let s := bufSet s i (fun b => { b with plannable := false })
    let s := if (getRG s).group_state = .done then
        setRG s { getRG s with group_state := .off } else s
    if fp_ZERO (getR s).tail_length then (.ok, s)
    else
      let s := sectionSegments s (getR s).tail_time
      let s :=
        if s.segment_count = 1 then
          { s with segment_velocity := ((getR s).cruise_velocity + (getR s).exit_velocity) / 2
                   fd5 := 0
                   section_state := .secondHalf }
        else
          let r := getR s
          { applyFwdDiffs s (init_forward_diffs r.cruise_velocity r.exit_velocity
              r.cruise_acceleration r.exit_acceleration r.cruise_jerk r.exit_jerk
              r.tail_time s.segments) with section_state := .firstHalf }
      if s.segment_time < MIN_SEGMENT_TIME then (.ok, dtrap s)
      else tailRun ext { s with mr_section := .tail }
  else tailRun ext s

/-- The `SECTION_2nd_HALF` part of `_exec_aline_body` (plan_exec.cpp
lines 1484-1494); the body always reports `STAT_EAGAIN`. -/
def bodyRun (ext : Collab) (s : St) : Stat × St :=
  if s.section_state = .secondHalf then
    let (done, s) := exec_aline_segment ext s
    if done then (.eagain, { s with section_state := .new })
    else (.eagain, s)
  else (.eagain, s)

/-- Shallow embedding of `_exec_aline_body` (plan_exec.cpp lines
1439-1495).  Returns `none` for the `while(1)` dead loop guarding a
negative segment velocity (lines 1443-1446). -/
def exec_aline_body (ext : Collab) (i : Nat) (s : St) : Option (Stat × St) :=
  if s.segment_velocity < 0 then none
  else if s.section_state = .new then
    let remaining_body_length := (getR s).body_length - s.executed_body_length
    if fp_ZERO remaining_body_length then
      some (exec_aline_tail ext i { s with mr_section := .tail })
    else
      let s :=
        if ¬ fp_ZERO s.executed_body_length then
          { s with
            wp_body := List.zipWith (fun p u => p + u * remaining_body_length)
              s.position s.unit
            wp_tail := List.zipWith (fun p u => p + u * (remaining_body_length + (getR s).tail_length))
              s.position s.unit }
        else s
      let body_time := (getR s).body_time - s.executed_body_time
      let s := sectionSegments s body_time
      let s := { s with segment_velocity := (getR s).cruise_velocity }
      if s.segment_time < MIN_SEGMENT_TIME then some (.ok, dtrap s)
      else
        let s := { s with executed_body_length := (getR s).body_length
                          executed_body_time := (getR s).body_time
                          mr_section := .body
                          section_state := .secondHalf }
        some (bodyRun ext s)
  else some (bodyRun ext s)

/-- The `SECTION_1st_HALF` / `SECTION_2nd_HALF` part of
`_exec_aline_head` (plan_exec.cpp lines 1401-1430). -/
def headRun (ext : Collab) (s : St) : Stat × St :=
  if s.section_state = .firstHalf then
    let (done, s) := exec_aline_segment ext s
    if done then (.eagain, { s with mr_section := .body, section_state := .new })
    else (.eagain, { s with section_state := .secondHalf })
  else if s.section_state = .secondHalf then
    let s := { s with segment_velocity := s.segment_velocity + s.fd5 }
    let (done, s) := exec_aline_segment ext s
    if done then
      if fp_ZERO (getR s).body_length ∧ fp_ZERO (getR s).tail_length then (.ok, s)
      else (.eagain, { s with mr_section := .body, section_state := .new })
    else (.eagain, fdCascade s)
  else (.eagain, s)

/-- Shallow embedding of `_exec_aline_head` (plan_exec.cpp lines
1371-1431). -/
def exec_aline_head (ext : Collab) (i : Nat) (s : St) : Option (Stat × St) :=
  if s.section_state = .new then
    if fp_ZERO (getR s).head_length then
      exec_aline_body ext i { s with mr_section := .body }
    else
      let s := sectionSegments s (getR s).head_time
      let s :=
        if s.segment_count = 1 then
          { s with segment_velocity := (s.entry_velocity + (getR s).cruise_velocity) / 2
                   fd5 := 0
                   section_state := .secondHalf }
        else
          let r := getR s
          { applyFwdDiffs s (init_forward_diffs s.entry_velocity r.cruise_velocity
              s.entry_acceleration r.cruise_acceleration s.entry_jerk r.cruise_jerk
              r.head_time s.segments) with section_state := .firstHalf }
      if s.segment_time < MIN_SEGMENT_TIME then some (.ok, dtrap s)
      else some (headRun ext { s with mr_section := .head })
  else some (headRun ext s)

/-! ## New-move setup of `mp_exec_aline` (plan_exec.cpp lines 680-854) -/

/-- First stage of `mp_exec_aline`'s new-move setup (plan_exec.cpp
lines 680-696): zero-length exception, G-code model copy (represented
by its target vector) and runtime initialization. -/
def alineSetupA (i : Nat) (s : St) : St :=
  let bf := bufGet s i
  let s := if fp_ZERO bf.length then rptException s else s
  let s := { s with gm_target := bf.gm_target }
  let s := bufSet s i (fun b => { b with move_state := .run })
  { s with mr_move_state := .new, mr_section := .head,
           section_state := .new, mr_jerk := bf.jerk }

/-- Group pointer handling of the new-move setup (plan_exec.cpp lines
699-713), done before the run/plan block swap. -/
def alineSetupB (s : St) : St :=
  if (getRG s).group_state = .off then
    { s with group_entry_velocity := (getRG s).exit_velocity, rgIdx := ¬ s.rgIdx }
  else
    setRG s { getRG s with
      completed_group_body_length :=
        (getRG s).completed_group_body_length + (getR s).body_length
      completed_group_head_length :=
        (getRG s).completed_group_head_length + (getR s).head_length }

/-- The run/plan block swap of the new-move setup (plan_exec.cpp lines
715-717): `mr.r = mr.p; mr.p = mr.p->nx; mr.p->planned = false`. -/
def alineSetupC (s : St) : St :=
  let s := { s with rIdx := ¬ s.rIdx }
  setP s { getP s with planned := false }

/-- Queue group-link maintenance of the new-move setup (plan_exec.cpp
lines 720-751). -/
def alineSetupD (i : Nat) (s : St) : St :=
  let bf := bufGet s i
  let s :=
    if bf.nx_group ≠ i + 1 then
      let s := bufSet s (i+1) (fun nx => { nx with
        nx_group := bf.nx_group
        plannable := bf.plannable
        group_length := bf.group_length
        cruise_vmax := bf.cruise_vmax
        cruise_velocity := bf.cruise_velocity
        exit_vmax := bf.exit_vmax
        exit_velocity := bf.exit_velocity })
      if ¬ fp_EQ (bufGet s (i+1)).jerk bf.jerk then
        bufSet s (i+1) (fun nx => { nx with
          jerk := bf.jerk
          jerk_sq := bf.jerk_sq
          recip_jerk := bf.recip_jerk
          sqrt_j := bf.sqrt_j
          q_recip_2_sqrt_j := bf.q_recip_2_sqrt_j })
      else s
    else s
  let s := bufSet s bf.nx_group (fun b => { b with pv_group := i })
  let s := bufSet s i (fun b => { b with pv_group := i - 1 })
  let s := bufSet s (i - 1) (fun b => { b with nx_group := i })
  if (getRG s).first_block = i - 1 then
    setRG s { getRG s with first_block := i } else s

/-- The state-preparation half of `mp_exec_aline`'s new-move setup
(plan_exec.cpp lines 680-781): runtime initialization, group pointer
handling, run/plan block swap and group-link maintenance on the queue.
`i` is the index of the `bf` argument; `bf->nx` is index `i+1` and
`bf->pv` index `i-1`. -/
def alineSetupPre (i : Nat) (s : St) : St :=
  { alineSetupD i (alineSetupC (alineSetupB (alineSetupA i s))) with
    executed_body_length := 0, executed_body_time := 0 }

/-- The last stage of `mp_exec_aline`'s new-move setup (plan_exec.cpp
lines 841-854): install the merged block runtime `r2` as `mr.r`, copy
the unit/target/axis-flag vectors from the buffer and generate the
section-end waypoints. -/
def alineSetupFin (i : Nat) (s0 : St) (r2 : BlockRt) : St :=
  let bf := bufGet s0 i
  let s := setR s0 r2
  let s := { s with unit := bf.unit, target := bf.gm_target,
                    axis_flags := bf.axis_flags }
  let s := { s with
    wp_head := List.zipWith (fun p u => p + u * r2.head_length)
      s.position s.unit
    wp_body := List.zipWith (fun p u => p + u * (r2.head_length + r2.body_length))
      s.position s.unit
    wp_tail := List.zipWith
      (fun p u => p + u * (r2.head_length + r2.body_length + r2.tail_length))
      s.position s.unit }
  { s with run_time_remaining := bf.move_time }

/-- The new-move setup of `mp_exec_aline` (plan_exec.cpp lines 680-854):
the state preparation `alineSetupPre` followed by the short-section
merge of `mr.r` and the waypoint generation.  Returns `none` when the
merge hits its `while(1)` dead loop (line 837). -/
def alineSetup (i : Nat) (s : St) : Option St :=
  -- short-section merging on mr.r
  match mergeShortSections (alineSetupPre i s).entry_velocity
      (getR (alineSetupPre i s)) with
  | none => none
  | some r2 => some (alineSetupFin i (alineSetupPre i s) r2)

/-- The state produced by `alineSetup` when the short-section merge
leaves `mr.r` unchanged, as happens for an all-zero block. -/
def alineSetupZ (i : Nat) (s : St) : St :=
  alineSetupFin i (alineSetupPre i s) (getR (alineSetupPre i s))

/-! ## `mp_exec_aline` (plan_exec.cpp lines 673-1011) -/

/-- The main dispatcher of `mp_exec_aline` (plan_exec.cpp lines
960-965): process one segment via the current section runner. -/
def alineDispatch (ext : Collab) (i : Nat) (s : St) : Option (Stat × St) :=
  match s.mr_section with
  | .head => exec_aline_head ext i s
  | .body => exec_aline_body ext i s
  | .tail => some (exec_aline_tail ext i s)

/-- The plannable update after dispatch (plan_exec.cpp lines 967-972). -/
def alinePlannable (i : Nat) (s : St) : St :=
  if s.mr_section = .tail ∨ (s.mr_section = .body ∧ s.segment_count < 3) then
    bufSet s i (fun b => { b with plannable := false })
  else s

/-- Feedhold case (5) detection after dispatch (plan_exec.cpp lines
975-978). -/
def alineHoldEnd (i : Nat) (status : Stat) (s : St) : St :=
  if s.hold_state = .decelToZero ∧ status = .ok then
    bufSet { s with hold_state := .decelEnd } i (fun b => { b with move_state := .new })
  else s

/-- Move-end processing of `mp_exec_aline` (plan_exec.cpp lines
991-1009): reset the move runtime, retire the running group, feed the
exit conditions into the next move's entry conditions, free the run
buffer and possibly end the cycle. -/
def alineMoveEnd (ext : Collab) (i : Nat) (s : St) : St :=
  let s := { s with mr_move_state := .off, section_state := .off,
                    run_time_remaining := 0 }
  let s := if (getRG s).group_state = .done then
      setRG s { getRG s with group_state := .off } else s
  let s := { s with entry_velocity := (getR s).exit_velocity
                    entry_acceleration := (getR s).exit_acceleration
                    entry_jerk := (getR s).exit_jerk }
  if (bufGet s i).move_state = .run then
    let s := { s with freed := s.freed + 1 }
    if ext.free_empties ∧ s.hold_state = .off then
      { s with cycle_ends := s.cycle_ends + 1 }
    else s
  else s

/-- The return-status processing of `mp_exec_aline` (plan_exec.cpp lines
988-1010). -/
def alineFinish (ext : Collab) (i : Nat) (status : Stat) (s : St) : Stat × St :=
  let s := alinePlannable i s
  let s := alineHoldEnd i status s
  if status = .eagain then (.eagain, { s with sr_requests := s.sr_requests + 1 })
  else (status, alineMoveEnd ext i s)

/-- Shallow embedding of `mp_exec_aline`.  Returns `none` when the call
reaches one of the `while(1)` dead loops of the source: the disabled
feedhold path at line 878 (entered whenever `cm.motion_state ==
MOTION_HOLD`; the feedhold case analysis below it, lines 883-953, is
unreachable and therefore not part of the embedding), the all-body
too-short merge at line 837, or the negative segment velocity trap of
`_exec_aline_body` at line 1445. -/
def mp_exec_aline (ext : Collab) (i : Nat) (s : St) : Option (Stat × St) :=
  if (bufGet s i).move_state = .off then some (.noop, s)
  else
    match (if s.mr_move_state = .off then alineSetup i s else some s) with
    | none => none
    | some s1 =>
      if s1.motion_state = .hold then none
      else
        match alineDispatch ext i { s1 with mr_move_state := .run } with
        | none => none
        | some (status, s2) => some (alineFinish ext i status s2)

/-! ## `mp_exec_move` (plan_exec.cpp lines 522-579) -/

/-- What `mp_exec_move` does after its dispatch logic: return no-op,
panic (`bf_func == NULL`), or run the move callback `bf->bf_func(bf)`. -/
inductive ExecDecision
  | noop
  | panicked
  | callback
  deriving DecidableEq

/-- The tail of `mp_exec_move` (plan_exec.cpp lines 562-578): request a
forward plan of the next move, manage the motion state transition, and
dispatch to the move callback. -/
def execMoveFinish (s : St) (i : Nat) : St × ExecDecision :=
  let s := { s with plan_requests := s.plan_requests + 1 }
  let s := if s.motion_state ≠ .run ∧ s.motion_state ≠ .hold then
      { s with motion_state := .run } else s
  if (bufGet s i).bf_func_null then (s, .panicked) else (s, .callback)

/-- Shallow embedding of `mp_exec_move` up to the dispatch into
`bf->bf_func` (the callback itself, `mp_exec_aline` for alines, is a
separate definition). -/
def mp_exec_move (s : St) : St × ExecDecision :=
  match s.run_buf with
  | none => ({ s with prep_nulls := s.prep_nulls + 1 }, .noop)
  | some i =>
    let bf := bufGet s i
    if bf.move_type = .aline then
      if bf.buffer_state ≠ .running then
        if bf.buffer_state.rank < BufferState.prepped.rank then
          let s := rptException (bkpt s)
          ({ s with prep_nulls := s.prep_nulls + 1 }, .noop)
        else
          let s := if (bufGet s (i+1)).buffer_state.rank < BufferState.prepped.rank
                   then rptException (bkpt s) else s
          if bf.buffer_state = .prepped then
            let s := if s.motion_state = .run then bkpt s else s
            ({ s with plan_requests := s.plan_requests + 1 }, .noop)
          else
            let s := bufSet s i (fun b => { b with buffer_state := .running })
            let s := { s with time_accountings := s.time_accountings + 1 }
            execMoveFinish s i
      else
        execMoveFinish s i
    else
      -- non-aline moves skip the first-time block and go straight to dispatch
      if bf.bf_func_null then (s, .panicked) else (s, .callback)

/-! ## `_attempt_extension` (plan_exec.cpp lines 55-174) -/

/-- The epilogue of `_attempt_extension` (plan_exec.cpp lines 141-171):
when still extending or changing velocity, re-ramp the group, downgrade a
`PLANNED` first block (and its successor) to `PREPPED`, invalidate the
planning group when the running group's successor was downgraded, and
check the group lengths for negativity.  `isR` tells whether `group` is
`mr.r_group`; `fbIdx` is the index of `group->first_block` at entry. -/
def attemptFinish (s : St) (isR : Bool) (fbIdx : Nat)
    (group_extended velocity_changed : Bool) : St × Bool × Bool :=
  if group_extended ∨ velocity_changed then
    let s := setGrp s isR { getGrp s isR with
      group_state := .ramped, length_into_section := 0, t_into_section := 0 }
    let s := if (bufGet s fbIdx).buffer_state = .planned then
        bufSet s fbIdx (fun b => { b with buffer_state := .prepped }) else s
    let s :=
      if (bufGet s (fbIdx + 1)).buffer_state = .planned then
        let s := bufSet s (fbIdx + 1) (fun b => { b with buffer_state := .prepped })
        if isR then setPG s { getPG s with group_state := .off } else s
      else s
    let g := getGrp s isR
    let s := if g.head_length < 0 ∨ g.body_length < 0 ∨ g.tail_length < 0 then
        bkpt s else s
    (s, group_extended, velocity_changed)
  else (s, group_extended, velocity_changed)

/-- The recomputation `_attempt_extension` performs when the first
block's exit velocity differs from the group's cruise velocity
(plan_exec.cpp lines 87-128).  `gtl` is the external collaborator
`mp_get_target_length`. -/
def attemptRecompute (gtl : ℚ → ℚ → Buf → ℚ) (s : St) (isR : Bool)
    (group_extended velocity_changed : Bool) : St × Bool × Bool :=
  let g := getGrp s isR
  let fbIdx := g.first_block
  let bf_first_block := bufGet s fbIdx
  let tail_length := gtl bf_first_block.exit_velocity g.cruise_velocity bf_first_block
  let s :=
    if group_extended ∧
       ((g.length - g.tail_length) ≤ (bf_first_block.group_length - tail_length)) ∧
       isR ∧ s.mr_section = .body then bkpt s
    else s
  if group_extended ∨ (¬ isR) ∨ tail_length < g.tail_length then
    -- accept: we will have a tail
    let g := if group_extended then { g with length := bf_first_block.group_length } else g
    let g := { g with exit_velocity := bf_first_block.exit_velocity }
    let g := { g with tail_length := tail_length }
    let g := { g with body_length := g.length - (g.tail_length + g.head_length) }
    let g := { g with body_time := g.body_length / g.cruise_velocity
                      tail_time := (g.tail_length * 2) / (g.exit_velocity + g.cruise_velocity) }
    attemptFinish (setGrp s isR g) isR fbIdx group_extended velocity_changed
  else
    -- the inversion zone: revert the exit velocity instead of accepting
    -- a longer tail
    let s := bufSet s fbIdx (fun b => { b with exit_velocity := g.exit_velocity })
    attemptFinish s isR fbIdx group_extended false

/-- Shallow embedding of `_attempt_extension`.  `isR` tells whether the
`group` argument is `mr.r_group` (`true`) or `mr.p_group` (`false`);
the two reference parameters `group_extended` / `velocity_changed` are
threaded through the result. -/
def attempt_extension (gtl : ℚ → ℚ → Buf → ℚ) (s : St) (isR : Bool)
    (group_extended velocity_changed : Bool) : St × Bool × Bool :=
  if ¬ (group_extended ∨ velocity_changed) then (s, group_extended, velocity_changed)
  else
    let g := getGrp s isR
    let fbIdx := g.first_block
    let bf_first_block := bufGet s fbIdx
    if isR ∧ s.mr_section = .tail then
      -- extending the running group while already in the tail
      if group_extended then (bkpt s, group_extended, velocity_changed)
      else (s, group_extended, false)
    else
      if fp_NE bf_first_block.exit_velocity g.cruise_velocity then
        attemptRecompute gtl s isR group_extended velocity_changed
      else
        -- cruise to the end of the group
        let g := { g with exit_velocity := g.cruise_velocity }
        let g := { g with body_length := g.length - g.head_length }
        let g := { g with body_time := g.body_length / g.cruise_velocity }
        let g := { g with tail_length := 0, tail_time := 0 }
        attemptFinish (setGrp s isR g) isR fbIdx group_extended velocity_changed

/-! ## `mp_plan_move` (plan_exec.cpp lines 181-513) -/

/-- Extension / velocity-change detection on one group (plan_exec.cpp
lines 259-280 for the running group, 290-306 for the planning group):
compare the group's length and exit velocity against its first block,
clamp the first block's exit velocity to its vmax (correcting the
back-planner race), and apply `_attempt_extension`. -/
def planDetect (gtl : ℚ → ℚ → Buf → ℚ) (s : St) (isR : Bool)
    (group_extended velocity_changed : Bool) : St × Bool × Bool :=
  let g := getGrp s isR
  let fbIdx := g.first_block
  let group_extended :=
    if ¬ fp_GE g.length (bufGet s fbIdx).group_length then true else group_extended
  let s := if (bufGet s fbIdx).exit_velocity > (bufGet s fbIdx).exit_vmax then
      bufSet s fbIdx (fun b => { b with exit_velocity := b.exit_vmax }) else s
  let velocity_changed :=
    if ¬ fp_GE g.exit_velocity (bufGet s fbIdx).exit_velocity then true
    else velocity_changed
  attempt_extension gtl s isR group_extended velocity_changed

/-- Group selection of `mp_plan_move` (plan_exec.cpp lines 255-307):
detect extensions on the running group, choose the working group, and
when the planning group is chosen detect extensions on it as well.
Returns the updated state, the `group_extended` / `velocity_changed`
flags and whether the chosen group is `mr.r_group`. -/
def planPrelude (gtl : ℚ → ℚ → Buf → ℚ) (s : St) : St × Bool × Bool × Bool :=
  let (s, ge, vc) :=
    if (getRG s).group_state ≠ .off then planDetect gtl s true false false
    else (s, false, false)
  if ge ∨ vc ∨ ((getRG s).group_state ≠ .off ∧ (getRG s).group_state ≠ .done) then
    (s, ge, vc, true)
  else
    if (getPG s).group_state ≠ .off then
      let (s, ge, vc) := planDetect gtl s false ge vc
      (s, ge, vc, false)
    else (s, ge, vc, false)

/-- The block scan of the `GROUP_RAMPED` branch (plan_exec.cpp lines
411-415): advance past the blocks wholly inside the not-yet-completed
head and body.  Structural fuel stands in for the finiteness of the
planner ring. -/
def lookaheadStep (s : St) : Nat → ℚ → Nat → Nat
  | i, _, 0 => i
  | i, left, Nat.succ fuel =>
      if (bufGet s i).length + 1/10000 < left then
        lookaheadStep s (i+1) (left - (bufGet s i).length) fuel
      else i

/-- The `MP_BUFFER_PREPPED` / `GROUP_OFF` ramping branch of
`mp_plan_move` (plan_exec.cpp lines 370-403).  `ramps` is the external
collaborator `mp_calculate_ramps`, returning the group it updates in
place. -/
def planRamp (ramps : Buf → GroupRt → ℚ → GroupRt) (s : St) (isR : Bool)
    (i : Nat) (entry_velocity : ℚ) : St :=
  if (bufGet s i).buffer_state = .prepped ∧ (getGrp s isR).group_state = .off then
    let g := ramps (bufGet s i) (getGrp s isR) entry_velocity
    let s := setGrp s isR g
    let s := if g.head_length < 0 ∨ g.body_length < 0 ∨ g.tail_length < 0 then
        bkpt s else s
    setGrp s isR { getGrp s isR with
      completed_group_body_length := 0
      completed_group_head_length := 0
      first_block := i
      length := (bufGet s i).group_length
      length_into_section := 0
      t_into_section := 0
      group_state := .ramped }
  else s

/-- The `GROUP_RAMPED` branch of `mp_plan_move` (plan_exec.cpp lines
405-450): scan forward to the first block of the tail, make it the
group's first block for back-planning, zero its predecessor's exit, pin
its cruise/exit velocities and group length, and advance the group to
`GROUP_HEAD`. -/
def planRamped (s : St) (isR : Bool) (i : Nat) : St :=
  if (getGrp s isR).group_state = .ramped then
    let g := getGrp s isR
    let lock_length_left := (g.head_length - g.completed_group_head_length)
      + (g.body_length - g.completed_group_body_length)
    let la := lookaheadStep s i lock_length_left s.bufs.length
    let s := bufSet s (bufGet s i).nx_group (fun b => { b with pv_group := la })
    let s := setGrp s isR { getGrp s isR with first_block := la }
    let s := bufSet s la (fun b => { b with nx_group := (bufGet s i).nx_group })
    let s := bufSet s (la - 1) (fun b => { b with exit_vmax := 0, exit_velocity := 0 })
    let g := getGrp s isR
    let s := bufSet s la (fun b => { b with
      cruise_vmax := g.cruise_velocity
      exit_vmax := g.cruise_velocity
      exit_velocity := g.exit_velocity
      cruise_velocity := g.cruise_velocity
      group_length := g.length })
    setGrp s isR { getGrp s isR with group_state := .head }
  else s

/-- The dispersal branch of `mp_plan_move` (plan_exec.cpp lines
461-509): map the group's head/body/tail onto the chosen block runtime
via `mp_calculate_block` (the external collaborator `calcBlock`,
returning the block and group it updates in place together with `true`
for `STAT_OK` / `false` for `STAT_EAGAIN`), mark the block planned, and
mark the buffer `PLANNED`.  `blkIsR` tells whether the block runtime
written is `mr.r` (extension of the running move) or `mr.p`. -/
def planDisperse (calcBlock : Buf → GroupRt → BlockRt → ℚ → ℚ → ℚ → BlockRt × GroupRt × Bool)
    (s : St) (isR : Bool) (i : Nat) (blkIsR : Bool)
    (entry_velocity entry_acceleration entry_jerk : ℚ) : St × Stat :=
  if (getGrp s isR).group_state.rank > GroupState.ramped.rank ∧
     (getGrp s isR).group_state ≠ .done ∧
     (bufGet s i).buffer_state ≠ .planned then
    let s := if (getGrp s isR).head_length < 0 ∨ (getGrp s isR).body_length < 0 ∨
                (getGrp s isR).tail_length < 0 then bkpt s else s
    let blockIn := if blkIsR then getR s else getP s
    let res := calcBlock (bufGet s i) (getGrp s isR) blockIn
      entry_velocity entry_acceleration entry_jerk
    let block := res.1
    let s := setGrp s isR res.2.1
    let s := if (bufGet s i).buffer_state ≠ .empty ∧
                block.exit_velocity > block.cruise_velocity then bkpt s else s
    let s := if block.head_length < 1/1000 ∧ block.body_length < 1/1000 ∧
                block.tail_length < 1/1000 then bkpt s else s
    let s := if (getGrp s isR).head_length < 0 ∨ (getGrp s isR).body_length < 0 ∨
                (getGrp s isR).tail_length < 0 then bkpt s else s
    let block := { block with planned := true }
    let s := if blkIsR then setR s block else setP s block
    let s := if res.2.2 then setGrp s isR { getGrp s isR with group_state := .done } else s
    let s := bufSet s i (fun b => { b with buffer_state := .planned })
    (s, .ok)
  else (s, .noop)

/-- The planning tail of `mp_plan_move` (plan_exec.cpp lines 360-513)
once the working buffer, block runtime and entry conditions are chosen. -/
def planMoveRest (ramps : Buf → GroupRt → ℚ → GroupRt)
    (calcBlock : Buf → GroupRt → BlockRt → ℚ → ℚ → ℚ → BlockRt × GroupRt × Bool)
    (s : St) (isR : Bool) (i : Nat) (blkIsR : Bool)
    (entry_velocity entry_acceleration entry_jerk : ℚ) : St × Stat :=
  if (bufGet s i).buffer_state.rank < BufferState.prepped.rank then (s, .noop)
  else
    let s := planRamp ramps s isR i entry_velocity
    let s := planRamped s isR i
    planDisperse calcBlock s isR i blkIsR entry_velocity entry_acceleration entry_jerk

/-- Shallow embedding of `mp_plan_move`.  `ramps`, `calcBlock` and `gtl`
are the external collaborators `mp_calculate_ramps`,
`mp_calculate_block` and `mp_get_target_length` (spec section 6). -/
def mp_plan_move (ramps : Buf → GroupRt → ℚ → GroupRt)
    (calcBlock : Buf → GroupRt → BlockRt → ℚ → ℚ → ℚ → BlockRt × GroupRt × Bool)
    (gtl : ℚ → ℚ → Buf → ℚ) (s : St) : St × Stat :=
  match s.run_buf with
  | none => ({ s with prep_nulls := s.prep_nulls + 1 }, .noop)
  | some i0 =>
    if (bufGet s i0).move_type ≠ .aline then
      (bufSet s i0 (fun b => { b with buffer_state := .planned }), .ok)
    else
      let pre := planPrelude gtl s
      let s := pre.1
      let ge := pre.2.1
      let vc := pre.2.2.1
      let isR := pre.2.2.2
      if (bufGet s i0).buffer_state = .running then
        if (ge ∨ vc) ∧ isR then
          -- extension of the running group: plan into mr.r
          planMoveRest ramps calcBlock s isR i0 true
            s.entry_velocity s.entry_acceleration s.entry_jerk
        else if (¬ isR) ∧ (getPG s).group_state = .done then
          (s, .noop)
        else
          let i1 := i0 + 1
          if (bufGet s i1).move_type ≠ .aline then
            (bufSet s i1 (fun b => { b with buffer_state := .planned }), .ok)
          else
            planMoveRest ramps calcBlock s isR i1 false
              (getR s).exit_velocity (getR s).exit_acceleration (getR s).exit_jerk
      else
        planMoveRest ramps calcBlock s isR i0 false
          s.entry_velocity s.entry_acceleration s.entry_jerk

/-! ## Result projections -/

/-- The status component of an `mp_exec_aline` result. -/
def alineStatus (ext : Collab) (i : Nat) (s : St) : Option Stat :=
  (mp_exec_aline ext i s).map Prod.fst

/-- The `st_prep_line` call count after an `mp_exec_aline` call. -/
def alinePreps (ext : Collab) (i : Nat) (s : St) : Option Nat :=
  (mp_exec_aline ext i s).map (fun p => p.2.preps)

/-- The machine position after an `mp_exec_aline` call. -/
def alinePosition (ext : Collab) (i : Nat) (s : St) : Option (List ℚ) :=
  (mp_exec_aline ext i s).map (fun p => p.2.position)

/-- The exception-report count after an `mp_exec_aline` call. -/
def alineExceptions (ext : Collab) (i : Nat) (s : St) : Option Nat :=
  (mp_exec_aline ext i s).map (fun p => p.2.exceptions)

/-- The total merged section length, when the merge terminates. -/
def mergedTotal (ev : ℚ) (r : BlockRt) : Option ℚ :=
  (mergeShortSections ev r).map totalLength

/-! ## Concrete states for witnesses and counterexamples -/

/-- An all-zero block runtime. -/
def blk0 : BlockRt :=
  { head_length := 0, body_length := 0, tail_length := 0
    head_time := 0, body_time := 0, tail_time := 0
    cruise_velocity := 0, exit_velocity := 0
    cruise_acceleration := 0, exit_acceleration := 0
    cruise_jerk := 0, exit_jerk := 0, planned := false }

/-- An all-zero, `GROUP_OFF` group runtime. -/
def grp0 : GroupRt :=
  { group_state := .off, first_block := 0
    length := 0, head_length := 0, body_length := 0, tail_length := 0
    completed_group_head_length := 0, completed_group_body_length := 0
    cruise_velocity := 0, exit_velocity := 0, body_time := 0, tail_time := 0
    length_into_section := 0, t_into_section := 0 }

/-- A quiescent baseline state: empty queue, zeroed runtime, machine
stopped, all event counters zero. -/
def st0 : St :=
  { bufs := [], run_buf := none
    blkA := blk0, blkB := blk0, rIdx := true
    grpA := grp0, grpB := grp0, rgIdx := true
    mr_move_state := .off, mr_section := .head, section_state := .off
    mr_jerk := 0
    entry_velocity := 0, entry_acceleration := 0, entry_jerk := 0
    group_entry_velocity := 0
    segments := 0, segment_time := 0, segment_count := 0, segment_velocity := 0
    fd5 := 0, fd4 := 0, fd3 := 0, fd2 := 0, fd1 := 0
    executed_body_length := 0, executed_body_time := 0
    position := [0, 0, 0], target := [0, 0, 0], unit := [1, 0, 0]
    axis_flags := [1, 1, 1], gm_target := [0, 0, 0]
    wp_head := [0, 0, 0], wp_body := [0, 0, 0], wp_tail := [0, 0, 0]
    position_steps := [0, 0, 0], target_steps := [0, 0, 0]
    commanded_steps := [0, 0, 0], encoder_steps := [0, 0, 0]
    following_error := [0, 0, 0]
    motion_state := .stop, hold_state := .off, run_time_remaining := 0
    preps := 0, prep_nulls := 0, plan_requests := 0, exceptions := 0
    bkpts := 0, traps := 0, sr_requests := 0, time_accountings := 0
    freed := 0, cycle_ends := 0 }

/-- Trivial external collaborators: identity kinematics, zero
encoders. -/
def collab0 : Collab :=
  { kin := fun t => t, enc := fun _ => 0, free_empties := false }

/-- A state in the middle of a running move (`mr.move_state = RUN`)
whose machine has entered `MOTION_HOLD`: the concrete input on which
the executor reaches the `while(1)` of the disabled feedhold path. -/
def sHold : St :=
  { st0 with
    bufs := [{ buf0 with
      move_type := .aline, move_state := .run, bf_func_null := false }]
    run_buf := some 0
    mr_move_state := .run
    mr_section := .body
    section_state := .secondHalf
    segment_count := 4
    segment_velocity := 10
    motion_state := .hold }

/-- A state whose run buffer's `move_state` is `MOVE_OFF`. -/
def sOff : St := { st0 with bufs := [buf0], run_buf := some 0 }

/-- A zero-length aline block reaching new-move setup: the block has
`length = 0` and its planned runtime (`mr.p`, slot B) is all zero. -/
def sZeroLen : St :=
  { st0 with
    bufs := [{ buf0 with
      move_type := .aline, move_state := .new, bf_func_null := false
      length := 0, jerk := 1, unit := [1, 0, 0], gm_target := [0, 0, 0]
      axis_flags := [1, 1, 1], nx_group := 1 }]
    run_buf := some 0
    mr_move_state := .off
    motion_state := .run }

/-- A too-short block runtime whose body is an incomplete head/tail
remnant (`cruise_jerk` non-zero): the merge discards the body. -/
def rDiscard : BlockRt :=
  { blk0 with
    tail_length := 1, tail_time := 1
    body_length := 1/1000, body_time := 1/1000000
    cruise_velocity := 10, exit_velocity := 3, cruise_jerk := 1 }

/-- `mp_exec_move` counterexample state: the run buffer is an aline
still `EMPTY` (below `PREPPED`). -/
def sEmptyBuf : St :=
  { st0 with
    run_buf := some 0
    bufs := [{ buf0 with
        move_type := .aline, buffer_state := .empty, bf_func_null := false },
      { buf0 with
        move_type := .aline, buffer_state := .prepped, bf_func_null := false }] }

/-- `mp_exec_move` witness state: a `PLANNED` aline run buffer with a
`PREPPED` successor. -/
def sPlannedBuf : St :=
  { st0 with
    run_buf := some 0
    bufs := [{ buf0 with
        move_type := .aline, buffer_state := .planned, bf_func_null := false },
      { buf0 with
        move_type := .aline, buffer_state := .prepped, bf_func_null := false }] }

/-- `mp_get_target_length` stub returning a short braking length. -/
def gtl0 : ℚ → ℚ → Buf → ℚ := fun _ _ _ => 1

/-- `mp_get_target_length` stub returning a long braking length (the
quintic inversion zone). -/
def gtl6 : ℚ → ℚ → Buf → ℚ := fun _ _ _ => 3

/-- Modelled from the spec: `mp_calculate_ramps(bf, group,
entry_velocity)` (spec sections 4.6 and 6) computes the group's
head/body/tail ramps in place; it lives in the planner files that are
not under `src/`.  This stub leaves the group unchanged, which the spec
permits for an already consistent group. -/
def ramps0 : Buf → GroupRt → ℚ → GroupRt := fun _ g _ => g

/-- Modelled from the spec: `mp_calculate_block(bf, group, block,
entry_velocity, entry_acceleration, entry_jerk)` (spec sections 4.6 and
6) maps the group's head/body/tail onto the given block runtime and
returns `STAT_OK` when the group is done dispersing; it lives in the
planner files that are not under `src/`.  This stub copies the group's
sections and velocities onto the block in one step. -/
def calc0 : Buf → GroupRt → BlockRt → ℚ → ℚ → ℚ → BlockRt × GroupRt × Bool :=
  fun _ g b _ _ _ =>
    ({ b with head_length := g.head_length, body_length := g.body_length
              tail_length := g.tail_length, cruise_velocity := g.cruise_velocity
              exit_velocity := g.exit_velocity }, g, true)

/-- `mp_plan_move` counterexample state: the running group (slot A) is
mid-dispersal (`GROUP_HEAD`) and has been extended (its length 10 is
less than its first block's `group_length` 20) while its first block is
the `RUNNING` run buffer. -/
def sPlanR : St :=
  { st0 with
    run_buf := some 0
    bufs := [{ buf0 with
        move_type := .aline, buffer_state := .running, bf_func_null := false
        length := 5, group_length := 20, exit_vmax := 10, exit_velocity := 5
        nx_group := 2 },
      { buf0 with
        move_type := .aline, buffer_state := .prepped, length := 20, nx_group := 2 },
      buf0]
    grpA := { grp0 with
      group_state := .head, first_block := 0, length := 10
      head_length := 2, tail_length := 1
      cruise_velocity := 10, exit_velocity := 8 } }

/-- `mp_plan_move` witness state: a `PREPPED` aline run buffer, both
groups `OFF`. -/
def sPlanP : St :=
  { st0 with
    run_buf := some 0
    bufs := [{ buf0 with
      move_type := .aline, buffer_state := .prepped, bf_func_null := false }] }

/-- `_attempt_extension` counterexample state: the planning group (slot
B) has a pending exit-velocity change (first block exit 5 against group
exit 8) whose recomputed tail (3) is longer than the planned tail (1). -/
def sInvP : St :=
  { st0 with
    bufs := [{ buf0 with
      move_type := .aline, exit_velocity := 5, exit_vmax := 10, group_length := 20 }]
    grpB := { grp0 with
      group_state := .head, first_block := 0, length := 20
      head_length := 2, tail_length := 1
      cruise_velocity := 10, exit_velocity := 8 } }

/-- `_attempt_extension` witness state: same situation on the running
group (slot A). -/
def sInvR : St :=
  { st0 with
    bufs := [{ buf0 with
      move_type := .aline, exit_velocity := 5, exit_vmax := 10, group_length := 20 }]
    grpA := { grp0 with
      group_state := .head, first_block := 0, length := 20
      head_length := 2, tail_length := 1
      cruise_velocity := 10, exit_velocity := 8 } }

/-- A well-formed trapezoid block runtime untouched by the merge. -/
def rKeep : BlockRt :=
  { blk0 with head_length := 1, head_time := 1, body_length := 1, body_time := 1
              tail_length := 1, tail_time := 1, cruise_velocity := 10, exit_velocity := 4 }

/-! ## Theorems -/

/-- The Bernstein form of the quintic expands to the power-basis
polynomial with coefficients `coefA .. coefF` (plan_exec.cpp comment,
lines 1063-1071): these are exactly the power-basis coefficients of the
quintic Bezier. -/
theorem bezierV_eq_Vpoly (P_0 P_1 P_2 P_3 P_4 P_5 t : ℚ) :
    bezierV P_0 P_1 P_2 P_3 P_4 P_5 t =
      Vpoly (coefA P_0 P_1 P_2 P_3 P_4 P_5) (coefB P_0 P_1 P_2 P_3 P_4 P_5)
        (coefC P_0 P_1 P_2 P_3 P_4 P_5) (coefD P_0 P_1 P_2 P_3 P_4 P_5)
        (coefE P_0 P_1 P_2 P_3 P_4 P_5) (coefF P_0 P_1 P_2 P_3 P_4 P_5) t := by
  dsimp only [bezierV, Vpoly, coefA, coefB, coefC, coefD, coefE, coefF]
  ring

/-- Claim C1: `_init_forward_diffs(v_0, v_1, a_0, a_1, j_0, j_1, T)`
with `mr.segments = I >= 1` and `h = 1/I` sets the forward-difference
registers exactly to `F_5 = (121/16)A h^5 + 5B h^4 + (13/4)C h^3 +
2D h^2 + E h`, `F_4 = (165/2)A h^5 + 29B h^4 + 9C h^3 + 2D h^2`,
`F_3 = 255A h^5 + 48B h^4 + 6C h^3`, `F_2 = 300A h^5 + 24B h^4`,
`F_1 = 120A h^5`, where `A..F` are the power-basis coefficients of the
quintic Bezier through the control points `P_0 = v_0`,
`P_1 = v_0 + (T/5)a_0`, `P_2 = v_0 + (2T/5)a_0 + (T^2/20)j_0`,
`P_3 = v_1 - (2T/5)a_1 + (T^2/20)j_1`, `P_4 = v_1 - (T/5)a_1`,
`P_5 = v_1`, and the initial `mr.segment_velocity` equals `V(h/2)` for
`V(t) = A t^5 + B t^4 + C t^3 + D t^2 + E t + F` (exact arithmetic);
that `V` is indeed the Bezier through the control points is the last
conjunct. -/
theorem C1_forward_diff_init
    (v0 v1 a0 a1 j0 j1 T I h P0 P1 P2 P3 P4 P5 A B C D E F : ℚ)
    (hI : 1 ≤ I) (hh : h = 1/I)
    (hP0 : P0 = v0)
    (hP1 : P1 = v0 + (T/5)*a0)
    (hP2 : P2 = v0 + (2*T/5)*a0 + (T^2/20)*j0)
    (hP3 : P3 = v1 - (2*T/5)*a1 + (T^2/20)*j1)
    (hP4 : P4 = v1 - (T/5)*a1)
    (hP5 : P5 = v1)
    (hA : A = coefA P0 P1 P2 P3 P4 P5)
    (hB : B = coefB P0 P1 P2 P3 P4 P5)
    (hC : C = coefC P0 P1 P2 P3 P4 P5)
    (hD : D = coefD P0 P1 P2 P3 P4 P5)
    (hE : E = coefE P0 P1 P2 P3 P4 P5)
    (hF : F = coefF P0 P1 P2 P3 P4 P5) :
    (init_forward_diffs v0 v1 a0 a1 j0 j1 T I).d5
        = (121/16)*A*h^5 + 5*B*h^4 + (13/4)*C*h^3 + 2*D*h^2 + E*h
    ∧ (init_forward_diffs v0 v1 a0 a1 j0 j1 T I).d4
        = (165/2)*A*h^5 + 29*B*h^4 + 9*C*h^3 + 2*D*h^2
    ∧ (init_forward_diffs v0 v1 a0 a1 j0 j1 T I).d3
        = 255*A*h^5 + 48*B*h^4 + 6*C*h^3
    ∧ (init_forward_diffs v0 v1 a0 a1 j0 j1 T I).d2
        = 300*A*h^5 + 24*B*h^4
    ∧ (init_forward_diffs v0 v1 a0 a1 j0 j1 T I).d1
        = 120*A*h^5
    ∧ (init_forward_diffs v0 v1 a0 a1 j0 j1 T I).segment_velocity
        = Vpoly A B C D E F (h/2)
    ∧ (init_forward_diffs v0 v1 a0 a1 j0 j1 T I).segment_velocity
        = bezierV P0 P1 P2 P3 P4 P5 (h/2) := by
  subst hh hP0 hP1 hP2 hP3 hP4 hP5 hA hB hC hD hE hF
  refine ⟨?_, ?_, ?_, ?_, ?_, ?_, ?_⟩ <;>
    dsimp only [init_forward_diffs, coefA, coefB, coefC, coefD, coefE, coefF,
      Vpoly, bezierV] <;>
    ring

/-- Witness for C1 at `v_0 = 0, v_1 = 1, a_0 = a_1 = 0, j_0 = 20,
j_1 = 0, T = 1, I = 2`. -/
theorem C1_forward_diff_init_witness :
    ((1:ℚ) ≤ 2) ∧
    ((init_forward_diffs 0 1 0 0 20 0 1 2).d5
        = (121/16) * coefA 0 0 1 1 1 1 * (1/2)^5 + 5 * coefB 0 0 1 1 1 1 * (1/2)^4
          + (13/4) * coefC 0 0 1 1 1 1 * (1/2)^3 + 2 * coefD 0 0 1 1 1 1 * (1/2)^2
          + coefE 0 0 1 1 1 1 * (1/2)
    ∧ (init_forward_diffs 0 1 0 0 20 0 1 2).d4
        = (165/2) * coefA 0 0 1 1 1 1 * (1/2)^5 + 29 * coefB 0 0 1 1 1 1 * (1/2)^4
          + 9 * coefC 0 0 1 1 1 1 * (1/2)^3 + 2 * coefD 0 0 1 1 1 1 * (1/2)^2
    ∧ (init_forward_diffs 0 1 0 0 20 0 1 2).d3
        = 255 * coefA 0 0 1 1 1 1 * (1/2)^5 + 48 * coefB 0 0 1 1 1 1 * (1/2)^4
          + 6 * coefC 0 0 1 1 1 1 * (1/2)^3
    ∧ (init_forward_diffs 0 1 0 0 20 0 1 2).d2
        = 300 * coefA 0 0 1 1 1 1 * (1/2)^5 + 24 * coefB 0 0 1 1 1 1 * (1/2)^4
    ∧ (init_forward_diffs 0 1 0 0 20 0 1 2).d1
        = 120 * coefA 0 0 1 1 1 1 * (1/2)^5
    ∧ (init_forward_diffs 0 1 0 0 20 0 1 2).segment_velocity
        = Vpoly (coefA 0 0 1 1 1 1) (coefB 0 0 1 1 1 1) (coefC 0 0 1 1 1 1)
            (coefD 0 0 1 1 1 1) (coefE 0 0 1 1 1 1) (coefF 0 0 1 1 1 1) ((1/2)/2)
    ∧ (init_forward_diffs 0 1 0 0 20 0 1 2).segment_velocity
        = bezierV 0 0 1 1 1 1 ((1/2)/2)) :=
  ⟨by norm_num,
   C1_forward_diff_init 0 1 0 0 20 0 1 2 (1/2) 0 0 1 1 1 1
     (coefA 0 0 1 1 1 1) (coefB 0 0 1 1 1 1) (coefC 0 0 1 1 1 1)
     (coefD 0 0 1 1 1 1) (coefE 0 0 1 1 1 1) (coefF 0 0 1 1 1 1)
     (by norm_num) (by norm_num) (by norm_num) (by norm_num) (by norm_num)
     (by norm_num) (by norm_num) (by norm_num)
     rfl rfl rfl rfl rfl rfl⟩

/-- Claim C3: for all `v_0, v_1`, all segment counts `I >= 1` and all
`T`, the quintic initializer called with zero boundary accelerations and
jerks produces the same forward-difference registers and the same
initial segment velocity as the original cubic-form initializer with
`A = -6v_0 + 6v_1`, `B = 15v_0 - 15v_1`, `C = -10v_0 + 10v_1`,
`D = E = 0`, `F = v_0` (over exact rationals the agreement is exact, so
in particular within any epsilon). -/
theorem C3_quintic_matches_cubic_form (v0 v1 T I : ℚ) (hI : 1 ≤ I) :
    (init_forward_diffs v0 v1 0 0 0 0 T I).d5
        = (init_forward_diffs_old v0 v1 0 0 0 0 T I).d5
    ∧ (init_forward_diffs v0 v1 0 0 0 0 T I).d4
        = (init_forward_diffs_old v0 v1 0 0 0 0 T I).d4
    ∧ (init_forward_diffs v0 v1 0 0 0 0 T I).d3
        = (init_forward_diffs_old v0 v1 0 0 0 0 T I).d3
    ∧ (init_forward_diffs v0 v1 0 0 0 0 T I).d2
        = (init_forward_diffs_old v0 v1 0 0 0 0 T I).d2
    ∧ (init_forward_diffs v0 v1 0 0 0 0 T I).d1
        = (init_forward_diffs_old v0 v1 0 0 0 0 T I).d1
    ∧ (init_forward_diffs v0 v1 0 0 0 0 T I).segment_velocity
        = (init_forward_diffs_old v0 v1 0 0 0 0 T I).segment_velocity := by
  refine ⟨?_, ?_, ?_, ?_, ?_, ?_⟩ <;>
    dsimp only [init_forward_diffs, init_forward_diffs_old] <;>
    ring

/-- Witness for C3 at `v_0 = 1, v_1 = 2, T = 3, I = 4`. -/
theorem C3_quintic_matches_cubic_form_witness :
    ((1:ℚ) ≤ 4) ∧
    ((init_forward_diffs 1 2 0 0 0 0 3 4).d5
        = (init_forward_diffs_old 1 2 0 0 0 0 3 4).d5
    ∧ (init_forward_diffs 1 2 0 0 0 0 3 4).d4
        = (init_forward_diffs_old 1 2 0 0 0 0 3 4).d4
    ∧ (init_forward_diffs 1 2 0 0 0 0 3 4).d3
        = (init_forward_diffs_old 1 2 0 0 0 0 3 4).d3
    ∧ (init_forward_diffs 1 2 0 0 0 0 3 4).d2
        = (init_forward_diffs_old 1 2 0 0 0 0 3 4).d2
    ∧ (init_forward_diffs 1 2 0 0 0 0 3 4).d1
        = (init_forward_diffs_old 1 2 0 0 0 0 3 4).d1
    ∧ (init_forward_diffs 1 2 0 0 0 0 3 4).segment_velocity
        = (init_forward_diffs_old 1 2 0 0 0 0 3 4).segment_velocity) :=
  ⟨by norm_num, C3_quintic_matches_cubic_form 1 2 3 4 (by norm_num)⟩

/-- Claim C2 (failing input): with `cm.motion_state == MOTION_HOLD` the
executor reaches the `while(1)` of the disabled feedhold path
(plan_exec.cpp line 878) and never returns: the call diverges, preps no
segment, and in particular does not prep exactly one segment. -/
theorem C2_hold_input_diverges : mp_exec_aline collab0 0 sHold = none := by rfl

/-- Claim C10: a call to `mp_exec_aline` on a buffer whose `move_state`
is `MOVE_OFF` returns `STAT_NOOP` immediately with the entire state
(motion runtime `mr`, queue, hold state) unchanged, prepping no
segment. -/
theorem C10_move_off_noop (ext : Collab) (i : Nat) (s : St)
    (h : (bufGet s i).move_state = .off) :
    mp_exec_aline ext i s = some (.noop, s) := by
  unfold mp_exec_aline
  rw [if_pos h]

/-- Witness for C10 on the concrete state `sOff`. -/
theorem C10_move_off_noop_witness :
    mp_exec_aline collab0 0 sOff = some (.noop, sOff) :=
  C10_move_off_noop collab0 0 sOff rfl

/-- Claim C4 (counterexample): on the block runtime `rDiscard` (body
shorter than `MIN_SEGMENT_TIME` with non-zero `cruise_jerk`) the merge
terminates but discards the body, so the total
`head_length + body_length + tail_length` is *not* preserved. -/
theorem C4_merge_discard_cex :
    mergedTotal 0 rDiscard ≠ some (totalLength rDiscard) := by
  have habs : |(1/1000 : ℚ)| = 1/1000 := abs_of_pos (by norm_num)
  norm_num +decide [mergedTotal, mergeShortSections, mergeBody, foldShortHead,
    foldShortTail, totalLength, fp_ZERO, EPSILON, MIN_SEGMENT_TIME, rDiscard, blk0,
    habs]

/-- Claim C7 (counterexample): on a run buffer whose state is below
`PREPPED` (here `EMPTY`), `mp_exec_move` raises the exception, calls
`st_prep_null` and returns `STAT_NOOP` -- but it does *not* request a
plan, contrary to the claim. -/
theorem C7_below_prepped_cex :
    (mp_exec_move sEmptyBuf).1.plan_requests = sEmptyBuf.plan_requests
    ∧ (mp_exec_move sEmptyBuf).2 = ExecDecision.noop
    ∧ (mp_exec_move sEmptyBuf).1.prep_nulls = sEmptyBuf.prep_nulls + 1
    ∧ (mp_exec_move sEmptyBuf).1.exceptions = sEmptyBuf.exceptions + 1 :=
  ⟨rfl, rfl, rfl, rfl⟩

/-- Claim C6 (counterexample): a pending exit-velocity change on the
*planning* group (not being extended) that hits the inversion zone is
*accepted*, not reverted: `velocity_changed` stays set, the group's
`tail_length` changes, and the first block's exit velocity is not
restored to the group's exit velocity. -/
theorem C6_inversion_p_group_cex :
    (attempt_extension gtl6 sInvP false false true).2.2 = true
    ∧ (getPG (attempt_extension gtl6 sInvP false false true).1).tail_length
        ≠ (getPG sInvP).tail_length
    ∧ (bufGet (attempt_extension gtl6 sInvP false false true).1 0).exit_velocity
        ≠ (getPG sInvP).exit_velocity := by
  refine ⟨?_, ?_, ?_⟩ <;>
    norm_num +decide [attempt_extension, attemptRecompute, attemptFinish, getGrp,
      getPG, getRG, setGrp, setPG, setRG, bufGet, bufSet, bkpt, fp_NE, fp_GE,
      fp_ZERO, EPSILON, gtl6, sInvP, st0, grp0, blk0, buf0, bufInhabited, List.getD]

/-- Claim C5 (counterexample): extending the running group while its
first block is the `RUNNING` run buffer makes `mp_plan_move` write the
running block runtime `mr.r` (through `mp_calculate_block`), contrary
to the claim that the planner never writes `mr.r`. -/
theorem C5_planner_writes_r_cex :
    (getR (mp_plan_move ramps0 calc0 gtl0 sPlanR).1).head_length = 2
    ∧ (getR sPlanR).head_length = 0 := by
  refine ⟨?_, ?_⟩ <;>
    norm_num +decide [mp_plan_move, planPrelude, planDetect, planMoveRest, planRamp,
      planRamped, planDisperse, lookaheadStep, attempt_extension, attemptRecompute,
      attemptFinish, getGrp, getPG, getRG, setGrp, setPG, setRG, getR, getP, setR,
      setP, bufGet, bufSet, bkpt, fp_NE, fp_GE, fp_ZERO, EPSILON, gtl0, ramps0,
      calc0, sPlanR, st0, grp0, blk0, buf0, bufInhabited, List.getD,
      BufferState.rank, GroupState.rank]

/-! ### Frame helper lemmas -/

theorem bufGet_bufSet_self (s : St) (i : Nat) (f : Buf → Buf)
    (h : i < s.bufs.length) : bufGet (bufSet s i f) i = f (bufGet s i) := by
  unfold bufGet bufSet
  rw [List.getD_eq_getElem?_getD, List.getElem?_set_eq_of_lt _ h]
  rfl

theorem bufGet_in_range (s : St) (i : Nat)
    (h : (bufGet s i).move_type = .aline) : i < s.bufs.length := by
  by_contra hge
  have hd : bufGet s i = buf0 := by
    unfold bufGet
    rw [List.getD_eq_default]
    · rfl
    · exact Nat.le_of_not_lt hge
  rw [hd] at h
  exact absurd h (by decide)

theorem getR_bufSet (s : St) (i : Nat) (f : Buf → Buf) :
    getR (bufSet s i f) = getR s := rfl

theorem getR_bkpt (s : St) : getR (bkpt s) = getR s := rfl

theorem getR_setRG (s : St) (g : GroupRt) : getR (setRG s g) = getR s := by
  unfold getR setRG
  split <;> rfl

theorem getR_setPG (s : St) (g : GroupRt) : getR (setPG s g) = getR s := by
  unfold getR setPG
  split <;> rfl

theorem getR_setGrp (s : St) (isR : Bool) (g : GroupRt) :
    getR (setGrp s isR g) = getR s := by
  unfold setGrp
  split
  · exact getR_setRG s g
  · exact getR_setPG s g

theorem getR_setP (s : St) (b : BlockRt) : getR (setP s b) = getR s := by
  unfold getR setP
  rcases h : s.rIdx <;> simp [h]

/-! ### Claim C4: short-section merging -/

theorem foldShortHead_pres (r : BlockRt) :
    totalLength (foldShortHead r) = totalLength r
    ∧ (foldShortHead r).exit_velocity = r.exit_velocity
    ∧ (foldShortHead r).cruise_jerk = r.cruise_jerk := by
  unfold foldShortHead totalLength
  split
  · refine ⟨?_, rfl, rfl⟩
    dsimp only
    ring
  · exact ⟨rfl, rfl, rfl⟩

theorem foldShortTail_pres (r : BlockRt) :
    totalLength (foldShortTail r) = totalLength r
    ∧ (foldShortTail r).exit_velocity = r.exit_velocity
    ∧ (foldShortTail r).cruise_jerk = r.cruise_jerk := by
  unfold foldShortTail totalLength
  split
  · refine ⟨?_, rfl, rfl⟩
    dsimp only
    ring
  · exact ⟨rfl, rfl, rfl⟩

theorem mergeBody_pres (ev : ℚ) (r r2 : BlockRt)
    (hm : mergeBody ev r = some r2)
    (hd : ¬ ((¬ fp_ZERO r.body_length) ∧ r.body_time < MIN_SEGMENT_TIME
             ∧ ¬ fp_ZERO r.cruise_jerk)) :
    totalLength r2 = totalLength r ∧ r2.exit_velocity = r.exit_velocity := by
  unfold mergeBody at hm
  by_cases h1 : (¬ fp_ZERO r.body_length = true) ∧ r.body_time < MIN_SEGMENT_TIME
  case neg =>
    rw [if_neg h1] at hm
    injection hm with hm2
    subst hm2
    exact ⟨rfl, rfl⟩
  case pos =>
    rw [if_pos h1] at hm
    by_cases h2 : ¬ fp_ZERO r.cruise_jerk = true
    case pos => exact absurd ⟨h1.1, h1.2, h2⟩ hd
    case neg =>
      rw [if_neg h2] at hm
      by_cases h3 : r.tail_length > 0
      case pos =>
        rw [if_pos h3] at hm
        by_cases h4 : r.head_length > 0
        case pos =>
          rw [if_pos h4] at hm
          injection hm with hm2
          subst hm2
          refine ⟨?_, rfl⟩
          unfold totalLength
          dsimp only
          ring
        case neg =>
          rw [if_neg h4] at hm
          injection hm with hm2
          subst hm2
          refine ⟨?_, rfl⟩
          unfold totalLength
          dsimp only
          ring
      case neg =>
        rw [if_neg h3] at hm
        by_cases h4 : r.head_length > 0
        case pos =>
          rw [if_pos h4] at hm
          injection hm with hm2
          subst hm2
          refine ⟨?_, rfl⟩
          unfold totalLength
          dsimp only
          ring
        case neg =>
          rw [if_neg h4] at hm
          cases hm

/-- Claim C4 (amended): short-section merging during `mp_exec_aline`'s
new-move setup preserves `head_length + body_length + tail_length` and
`exit_velocity`, provided the merge terminates (the all-body trap is not
hit) and the too-short body is not discarded by the non-zero
`cruise_jerk` branch; `exit_velocity` is preserved whenever the merge
terminates. -/
theorem C4_merge_preserves_total (ev : ℚ) (r r2 : BlockRt)
    (hm : mergeShortSections ev r = some r2)
    (hd : bodyDiscarded r = false) :
    totalLength r2 = totalLength r ∧ r2.exit_velocity = r.exit_velocity := by
  unfold mergeShortSections at hm
  obtain ⟨h1t, h1e, _⟩ := foldShortHead_pres r
  obtain ⟨h2t, h2e, _⟩ := foldShortTail_pres (foldShortHead r)
  simp only [bodyDiscarded] at hd
  rw [decide_eq_false_iff_not] at hd
  obtain ⟨h3t, h3e⟩ := mergeBody_pres ev _ r2 hm hd
  exact ⟨h3t.trans (h2t.trans h1t), h3e.trans (h2e.trans h1e)⟩

/-- Witness for C4 on the concrete block runtime `rKeep`. -/
theorem C4_merge_preserves_total_witness :
    mergeShortSections 2 rKeep = some rKeep
    ∧ bodyDiscarded rKeep = false
    ∧ (totalLength rKeep = totalLength rKeep
       ∧ rKeep.exit_velocity = rKeep.exit_velocity) := by
  have hm : mergeShortSections 2 rKeep = some rKeep := by
    norm_num +decide [mergeShortSections, mergeBody, foldShortHead, foldShortTail,
      fp_ZERO, EPSILON, MIN_SEGMENT_TIME, rKeep, blk0]
  have hd : bodyDiscarded rKeep = false := by
    norm_num +decide [bodyDiscarded, foldShortHead, foldShortTail, fp_ZERO, EPSILON,
      MIN_SEGMENT_TIME, rKeep, blk0]
  exact ⟨hm, hd, C4_merge_preserves_total 2 rKeep rKeep hm hd⟩

/-- Claim C6 (amended): when a pending exit-velocity change on the
*running* group -- not being extended, and not already in its tail
section -- hits the quintic inversion zone (`mp_get_target_length`
returns a tail not shorter than the group's planned tail), the planner
reverts the first block's exit velocity back to the group's exit
velocity and clears `velocity_changed`, without raising any error
(breakpoint) and without changing anything in the group runtime (in
particular its head/body/tail lengths and times). -/
theorem C6_inversion_guard_reverts (gtl : ℚ → ℚ → Buf → ℚ) (s : St)
    (hsec : s.mr_section ≠ .tail)
    (hfb : (getRG s).first_block < s.bufs.length)
    (hne : fp_NE (bufGet s (getRG s).first_block).exit_velocity
        (getRG s).cruise_velocity = true)
    (hinv : ¬ (gtl (bufGet s (getRG s).first_block).exit_velocity
        (getRG s).cruise_velocity (bufGet s (getRG s).first_block)
        < (getRG s).tail_length)) :
    (attempt_extension gtl s true false true).2.1 = false
    ∧ (attempt_extension gtl s true false true).2.2 = false
    ∧ (bufGet (attempt_extension gtl s true false true).1
        (getRG s).first_block).exit_velocity = (getRG s).exit_velocity
    ∧ getRG (attempt_extension gtl s true false true).1 = getRG s
    ∧ (attempt_extension gtl s true false true).1.bkpts = s.bkpts := by
  have hext : attempt_extension gtl s true false true
      = (bufSet s (getRG s).first_block
          (fun b => { b with exit_velocity := (getRG s).exit_velocity }), false, false) := by
    simp only [attempt_extension, attemptRecompute, attemptFinish, getGrp]
    simp [hne, hsec, hinv]
  rw [hext]
  refine ⟨rfl, rfl, ?_, rfl, rfl⟩
  rw [bufGet_bufSet_self _ _ _ hfb]

/-- Witness for C6 on the concrete state `sInvR`. -/
theorem C6_inversion_guard_reverts_witness :
    (attempt_extension gtl6 sInvR true false true).2.1 = false
    ∧ (attempt_extension gtl6 sInvR true false true).2.2 = false
    ∧ (bufGet (attempt_extension gtl6 sInvR true false true).1
        (getRG sInvR).first_block).exit_velocity = (getRG sInvR).exit_velocity
    ∧ getRG (attempt_extension gtl6 sInvR true false true).1 = getRG sInvR
    ∧ (attempt_extension gtl6 sInvR true false true).1.bkpts = sInvR.bkpts :=
  C6_inversion_guard_reverts gtl6 sInvR (by decide) (by decide)
    (by norm_num +decide [fp_NE, EPSILON, bufGet, sInvR, st0, grp0, buf0, getRG,
      List.getD])
    (by norm_num +decide [gtl6, getRG, sInvR, st0, grp0, bufGet, buf0, List.getD])

set_option maxHeartbeats 6400000 in
/-- Claim C7 (amended): for a call to `mp_exec_move` on an aline run
buffer not yet `RUNNING`: a buffer below `PREPPED` gets the exception
raised, a null stepper prep, and a `STAT_NOOP` return -- with *no* plan
request; a buffer exactly `PREPPED` gets a plan request and `STAT_NOOP`
without being promoted; a `PLANNED` buffer is promoted to `RUNNING`,
gets a forward plan of the next move requested, and its callback is
dispatched -- `cm_panic` when `bf_func` is `NULL`; a next buffer below
`PREPPED` (when the run buffer itself is at least `PREPPED`) raises an
exception but execution continues. -/
theorem C7_exec_move_dispatch (s : St) (i : Nat)
    (hrb : s.run_buf = some i)
    (hal : (bufGet s i).move_type = .aline)
    (hnr : (bufGet s i).buffer_state ≠ .running) :
    ((bufGet s i).buffer_state.rank < BufferState.prepped.rank →
        (mp_exec_move s).2 = .noop
        ∧ (mp_exec_move s).1.plan_requests = s.plan_requests
        ∧ (mp_exec_move s).1.prep_nulls = s.prep_nulls + 1
        ∧ (mp_exec_move s).1.exceptions = s.exceptions + 1)
    ∧ ((bufGet s i).buffer_state = .prepped →
        (mp_exec_move s).2 = .noop
        ∧ (mp_exec_move s).1.plan_requests = s.plan_requests + 1
        ∧ (bufGet (mp_exec_move s).1 i).buffer_state = .prepped)
    ∧ ((bufGet s i).buffer_state = .planned →
        (bufGet (mp_exec_move s).1 i).buffer_state = .running
        ∧ (mp_exec_move s).1.plan_requests = s.plan_requests + 1
        ∧ ((bufGet s i).bf_func_null = false → (mp_exec_move s).2 = .callback)
        ∧ ((bufGet s i).bf_func_null = true → (mp_exec_move s).2 = .panicked))
    ∧ (¬ (bufGet s i).buffer_state.rank < BufferState.prepped.rank →
        (bufGet s (i+1)).buffer_state.rank < BufferState.prepped.rank →
        (mp_exec_move s).1.exceptions = s.exceptions + 1) := by
  have hlen : i < s.bufs.length := bufGet_in_range s i hal
  refine ⟨?_, ?_, ?_, ?_⟩
  · intro hlt
    simp [mp_exec_move, hrb, hal, hnr, hlt, rptException, bkpt]
  · intro hbs
    rcases hnx : (bufGet s (i+1)).buffer_state <;>
      rcases hms : s.motion_state <;>
        (simp only [mp_exec_move, execMoveFinish, hrb]
         simp_all [bufGet, bufSet, BufferState.rank, rptException, bkpt])
  · intro hbs
    refine ⟨?_, ?_, ?_, ?_⟩
    · rcases hnx : (bufGet s (i+1)).buffer_state <;>
        rcases hms : s.motion_state <;>
          (simp only [mp_exec_move, execMoveFinish, hrb]
           split_ifs <;>
             simp_all [bufGet, bufSet, BufferState.rank, rptException, bkpt, hlen,
               List.getD_eq_getElem?_getD, List.getElem?_set_eq_of_lt _ hlen])
    · rcases hnx : (bufGet s (i+1)).buffer_state <;>
        rcases hms : s.motion_state <;>
          (simp only [mp_exec_move, execMoveFinish, hrb]
           split_ifs <;>
             simp_all [bufGet, bufSet, BufferState.rank, rptException, bkpt, hlen,
               List.getD_eq_getElem?_getD, List.getElem?_set_eq_of_lt _ hlen])
    · intro hfn
      rcases hnx : (bufGet s (i+1)).buffer_state <;>
        rcases hms : s.motion_state <;>
          (simp only [mp_exec_move, execMoveFinish, hrb]
           split_ifs <;>
             simp_all [bufGet, bufSet, BufferState.rank, rptException, bkpt, hlen,
               List.getD_eq_getElem?_getD, List.getElem?_set_eq_of_lt _ hlen])
    · intro hfn
      rcases hnx : (bufGet s (i+1)).buffer_state <;>
        rcases hms : s.motion_state <;>
          (simp only [mp_exec_move, execMoveFinish, hrb]
           split_ifs <;>
             simp_all [bufGet, bufSet, BufferState.rank, rptException, bkpt, hlen,
               List.getD_eq_getElem?_getD, List.getElem?_set_eq_of_lt _ hlen])
  · intro hge hnx
    rcases hbs : (bufGet s i).buffer_state
    · rw [hbs] at hge
      exact absurd (by decide) hge
    · rcases hms : s.motion_state <;>
        (simp only [mp_exec_move, execMoveFinish, hrb]
         split_ifs <;>
           simp_all [bufGet, bufSet, BufferState.rank, rptException, bkpt])
    · rcases hms : s.motion_state <;>
        (simp only [mp_exec_move, execMoveFinish, hrb]
         split_ifs <;>
           simp_all [bufGet, bufSet, BufferState.rank, rptException, bkpt])
    · exact absurd hbs hnr

/-- Witness for C7 on the concrete state `sPlannedBuf`. -/
theorem C7_exec_move_dispatch_witness :
    ((bufGet sPlannedBuf 0).buffer_state.rank < BufferState.prepped.rank →
        (mp_exec_move sPlannedBuf).2 = .noop
        ∧ (mp_exec_move sPlannedBuf).1.plan_requests = sPlannedBuf.plan_requests
        ∧ (mp_exec_move sPlannedBuf).1.prep_nulls = sPlannedBuf.prep_nulls + 1
        ∧ (mp_exec_move sPlannedBuf).1.exceptions = sPlannedBuf.exceptions + 1)
    ∧ ((bufGet sPlannedBuf 0).buffer_state = .prepped →
        (mp_exec_move sPlannedBuf).2 = .noop
        ∧ (mp_exec_move sPlannedBuf).1.plan_requests = sPlannedBuf.plan_requests + 1
        ∧ (bufGet (mp_exec_move sPlannedBuf).1 0).buffer_state = .prepped)
    ∧ ((bufGet sPlannedBuf 0).buffer_state = .planned →
        (bufGet (mp_exec_move sPlannedBuf).1 0).buffer_state = .running
        ∧ (mp_exec_move sPlannedBuf).1.plan_requests = sPlannedBuf.plan_requests + 1
        ∧ ((bufGet sPlannedBuf 0).bf_func_null = false →
            (mp_exec_move sPlannedBuf).2 = .callback)
        ∧ ((bufGet sPlannedBuf 0).bf_func_null = true →
            (mp_exec_move sPlannedBuf).2 = .panicked))
    ∧ (¬ (bufGet sPlannedBuf 0).buffer_state.rank < BufferState.prepped.rank →
        (bufGet sPlannedBuf (0+1)).buffer_state.rank < BufferState.prepped.rank →
        (mp_exec_move sPlannedBuf).1.exceptions = sPlannedBuf.exceptions + 1) :=
  C7_exec_move_dispatch sPlannedBuf 0 rfl (by decide) (by decide)

/-! ### Claim C5: planner frame lemmas -/

theorem getR_attemptFinish (s : St) (isR : Bool) (fb : Nat) (ge vc : Bool) :
    getR (attemptFinish s isR fb ge vc).1 = getR s := by
  simp only [attemptFinish]
  split_ifs <;>
    simp [getR_bufSet, getR_setGrp, getR_setRG, getR_setPG, getR_bkpt]

theorem getR_attemptRecompute (gtl : ℚ → ℚ → Buf → ℚ) (s : St) (isR : Bool)
    (ge vc : Bool) : getR (attemptRecompute gtl s isR ge vc).1 = getR s := by
  simp only [attemptRecompute]
  split_ifs <;>
    simp [getR_attemptFinish, getR_bufSet, getR_setGrp, getR_setRG, getR_setPG,
      getR_bkpt]

theorem getR_attempt_extension (gtl : ℚ → ℚ → Buf → ℚ) (s : St) (isR : Bool)
    (ge vc : Bool) : getR (attempt_extension gtl s isR ge vc).1 = getR s := by
  simp only [attempt_extension]
  split_ifs <;>
    simp [getR_attemptFinish, getR_attemptRecompute, getR_setGrp, getR_bkpt]

theorem getR_planDetect (gtl : ℚ → ℚ → Buf → ℚ) (s : St) (isR : Bool)
    (ge vc : Bool) : getR (planDetect gtl s isR ge vc).1 = getR s := by
  simp only [planDetect]
  split_ifs <;>
    simp [getR_attempt_extension, getR_bufSet]

theorem getR_planPrelude (gtl : ℚ → ℚ → Buf → ℚ) (s : St) :
    getR (planPrelude gtl s).1 = getR s := by
  simp only [planPrelude]
  split_ifs <;>
    simp [getR_planDetect]

theorem getR_planRamp (ramps : Buf → GroupRt → ℚ → GroupRt) (s : St)
    (isR : Bool) (i : Nat) (ev : ℚ) : getR (planRamp ramps s isR i ev) = getR s := by
  simp only [planRamp]
  split_ifs <;>
    simp [getR_setGrp, getR_bkpt]

theorem getR_planRamped (s : St) (isR : Bool) (i : Nat) :
    getR (planRamped s isR i) = getR s := by
  simp only [planRamped]
  split_ifs <;>
    simp [getR_setGrp, getR_bufSet]

theorem getR_planDisperse
    (calcBlock : Buf → GroupRt → BlockRt → ℚ → ℚ → ℚ → BlockRt × GroupRt × Bool)
    (s : St) (isR : Bool) (i : Nat) (ev ea ej : ℚ) :
    getR (planDisperse calcBlock s isR i false ev ea ej).1 = getR s := by
  by_cases hc : (getGrp s isR).group_state.rank > GroupState.ramped.rank ∧
      (getGrp s isR).group_state ≠ .done ∧ (bufGet s i).buffer_state ≠ .planned
  · simp only [planDisperse, if_pos hc, apply_ite getR, getR_bufSet, getR_setGrp,
      getR_setP, getR_bkpt, Bool.false_eq_true, if_false, ite_self]
  · simp only [planDisperse, if_neg hc]

theorem getR_planMoveRest (ramps : Buf → GroupRt → ℚ → GroupRt)
    (calcBlock : Buf → GroupRt → BlockRt → ℚ → ℚ → ℚ → BlockRt × GroupRt × Bool)
    (s : St) (isR : Bool) (i : Nat) (ev ea ej : ℚ) :
    getR (planMoveRest ramps calcBlock s isR i false ev ea ej).1 = getR s := by
  simp only [planMoveRest]
  split_ifs
  · rfl
  · rw [getR_planDisperse, getR_planRamped, getR_planRamp]

/-- Claim C5 (amended): apart from the one case in which the planner
applies an extension or velocity change of the *running* group to the
`RUNNING` run buffer (where it plans into `mr.r` through
`mp_calculate_block`), `mp_plan_move` leaves the running block runtime
`mr.r` unchanged: its block-runtime writes go to `mr.p`. -/
theorem C5_planner_preserves_r (ramps : Buf → GroupRt → ℚ → GroupRt)
    (calcBlock : Buf → GroupRt → BlockRt → ℚ → ℚ → ℚ → BlockRt × GroupRt × Bool)
    (gtl : ℚ → ℚ → Buf → ℚ) (s : St) (i0 : Nat)
    (hrb : s.run_buf = some i0)
    (h : ¬ ((bufGet (planPrelude gtl s).1 i0).buffer_state = .running
            ∧ ((planPrelude gtl s).2.1 = true ∨ (planPrelude gtl s).2.2.1 = true)
            ∧ (planPrelude gtl s).2.2.2 = true)) :
    getR (mp_plan_move ramps calcBlock gtl s).1 = getR s := by
  have hpre := getR_planPrelude gtl s
  simp only [mp_plan_move, hrb]
  by_cases h1 : (bufGet s i0).move_type ≠ .aline
  · simp only [if_pos h1, getR_bufSet]
  · simp only [if_neg h1]
    by_cases h2 : (bufGet (planPrelude gtl s).1 i0).buffer_state = .running
    · have h3 : ¬ (((planPrelude gtl s).2.1 = true ∨ (planPrelude gtl s).2.2.1 = true)
          ∧ (planPrelude gtl s).2.2.2 = true) := fun hc => h ⟨h2, hc⟩
      simp only [if_pos h2, if_neg h3]
      by_cases h4 : (¬ (planPrelude gtl s).2.2.2 = true)
          ∧ (getPG (planPrelude gtl s).1).group_state = .done
      · simp only [if_pos h4]
        exact hpre
      · simp only [if_neg h4]
        by_cases h5 : (bufGet (planPrelude gtl s).1 (i0+1)).move_type ≠ .aline
        · simp only [if_pos h5, getR_bufSet]
          exact hpre
        · simp only [if_neg h5]
          rw [getR_planMoveRest]
          exact hpre
    · simp only [if_neg h2]
      rw [getR_planMoveRest]
      exact hpre

/-- Witness for C5 on the concrete state `sPlanP` (a `PREPPED` run
buffer: the planner plans it into `mr.p` and leaves `mr.r` alone). -/
theorem C5_planner_preserves_r_witness :
    getR (mp_plan_move ramps0 calc0 gtl0 sPlanP).1 = getR sPlanP :=
  C5_planner_preserves_r ramps0 calc0 gtl0 sPlanP 0 rfl (by decide)

theorem fp_ZERO_zero : fp_ZERO 0 = true := by norm_num [fp_ZERO, EPSILON]

theorem mergeShortSections_zero (ev : ℚ) (r : BlockRt)
    (hh : r.head_length = 0) (hb : r.body_length = 0) (ht : r.tail_length = 0) :
    mergeShortSections ev r = some r := by
  have h1 : foldShortHead r = r := by
    simp [foldShortHead, hh, fp_ZERO_zero]
  have h2 : foldShortTail r = r := by
    simp [foldShortTail, ht, fp_ZERO_zero]
  have h3 : mergeBody ev r = some r := by
    simp [mergeBody, hb, fp_ZERO_zero]
  rw [mergeShortSections, h1, h2, h3]

/-! ### Frame kit: projections through the small state transformers -/
theorem bufSet_position (x : St) (j : Nat) (g : Buf → Buf) :
    (bufSet x j g).position = x.position := rfl
theorem bufSet_preps (x : St) (j : Nat) (g : Buf → Buf) :
    (bufSet x j g).preps = x.preps := rfl
theorem bufSet_segment_velocity (x : St) (j : Nat) (g : Buf → Buf) :
    (bufSet x j g).segment_velocity = x.segment_velocity := rfl
theorem bufSet_motion_state (x : St) (j : Nat) (g : Buf → Buf) :
    (bufSet x j g).motion_state = x.motion_state := rfl
theorem bufSet_mr_section (x : St) (j : Nat) (g : Buf → Buf) :
    (bufSet x j g).mr_section = x.mr_section := rfl
theorem bufSet_section_state (x : St) (j : Nat) (g : Buf → Buf) :
    (bufSet x j g).section_state = x.section_state := rfl
theorem bufSet_executed_body_length (x : St) (j : Nat) (g : Buf → Buf) :
    (bufSet x j g).executed_body_length = x.executed_body_length := rfl
theorem bufSet_exceptions (x : St) (j : Nat) (g : Buf → Buf) :
    (bufSet x j g).exceptions = x.exceptions := rfl
theorem rpt_position (x : St) : (rptException x).position = x.position := rfl
theorem rpt_preps (x : St) : (rptException x).preps = x.preps := rfl
theorem rpt_segment_velocity (x : St) : (rptException x).segment_velocity = x.segment_velocity := rfl
theorem rpt_motion_state (x : St) : (rptException x).motion_state = x.motion_state := rfl
theorem rpt_mr_section (x : St) : (rptException x).mr_section = x.mr_section := rfl
theorem rpt_section_state (x : St) : (rptException x).section_state = x.section_state := rfl
theorem rpt_executed_body_length (x : St) : (rptException x).executed_body_length = x.executed_body_length := rfl
theorem rpt_exceptions (x : St) : (rptException x).exceptions = x.exceptions + 1 := rfl
theorem setRG_position (x : St) (g : GroupRt) : (setRG x g).position = x.position := by
  unfold setRG; split <;> rfl
theorem setRG_preps (x : St) (g : GroupRt) : (setRG x g).preps = x.preps := by
  unfold setRG; split <;> rfl
theorem setRG_segment_velocity (x : St) (g : GroupRt) : (setRG x g).segment_velocity = x.segment_velocity := by
  unfold setRG; split <;> rfl
theorem setRG_motion_state (x : St) (g : GroupRt) : (setRG x g).motion_state = x.motion_state := by
  unfold setRG; split <;> rfl
theorem setRG_mr_section (x : St) (g : GroupRt) : (setRG x g).mr_section = x.mr_section := by
  unfold setRG; split <;> rfl
theorem setRG_section_state (x : St) (g : GroupRt) : (setRG x g).section_state = x.section_state := by
  unfold setRG; split <;> rfl
theorem setRG_executed_body_length (x : St) (g : GroupRt) : (setRG x g).executed_body_length = x.executed_body_length := by
  unfold setRG; split <;> rfl
theorem setRG_exceptions (x : St) (g : GroupRt) : (setRG x g).exceptions = x.exceptions := by
  unfold setRG; split <;> rfl
theorem setP_position (x : St) (b : BlockRt) : (setP x b).position = x.position := by
  unfold setP; split <;> rfl
theorem setP_preps (x : St) (b : BlockRt) : (setP x b).preps = x.preps := by
  unfold setP; split <;> rfl
theorem setP_segment_velocity (x : St) (b : BlockRt) : (setP x b).segment_velocity = x.segment_velocity := by
  unfold setP; split <;> rfl
theorem setP_motion_state (x : St) (b : BlockRt) : (setP x b).motion_state = x.motion_state := by
  unfold setP; split <;> rfl
theorem setP_mr_section (x : St) (b : BlockRt) : (setP x b).mr_section = x.mr_section := by
  unfold setP; split <;> rfl
theorem setP_section_state (x : St) (b : BlockRt) : (setP x b).section_state = x.section_state := by
  unfold setP; split <;> rfl
theorem setP_executed_body_length (x : St) (b : BlockRt) : (setP x b).executed_body_length = x.executed_body_length := by
  unfold setP; split <;> rfl
theorem setP_exceptions (x : St) (b : BlockRt) : (setP x b).exceptions = x.exceptions := by
  unfold setP; split <;> rfl
theorem setR_position (x : St) (b : BlockRt) : (setR x b).position = x.position := by
  unfold setR; split <;> rfl
theorem setR_preps (x : St) (b : BlockRt) : (setR x b).preps = x.preps := by
  unfold setR; split <;> rfl
theorem setR_segment_velocity (x : St) (b : BlockRt) : (setR x b).segment_velocity = x.segment_velocity := by
  unfold setR; split <;> rfl
theorem setR_motion_state (x : St) (b : BlockRt) : (setR x b).motion_state = x.motion_state := by
  unfold setR; split <;> rfl
theorem setR_mr_section (x : St) (b : BlockRt) : (setR x b).mr_section = x.mr_section := by
  unfold setR; split <;> rfl
theorem setR_section_state (x : St) (b : BlockRt) : (setR x b).section_state = x.section_state := by
  unfold setR; split <;> rfl
theorem setR_executed_body_length (x : St) (b : BlockRt) : (setR x b).executed_body_length = x.executed_body_length := by
  unfold setR; split <;> rfl
theorem setR_exceptions (x : St) (b : BlockRt) : (setR x b).exceptions = x.exceptions := by
  unfold setR; split <;> rfl

theorem getP_bufSet (s : St) (i : Nat) (f : Buf → Buf) :
    getP (bufSet s i f) = getP s := rfl

theorem getR_rpt (x : St) : getR (rptException x) = getR x := rfl

theorem getP_rpt (x : St) : getP (rptException x) = getP x := rfl

theorem getP_setRG (x : St) (g : GroupRt) : getP (setRG x g) = getP x := by
  unfold getP setRG
  rcases h : x.rgIdx <;> simp [h]

theorem getR_setR (s : St) (b : BlockRt) : getR (setR s b) = b := by
  unfold getR setR
  rcases h : s.rIdx <;> simp [h]

theorem getR_flip (x : St) : getR { x with rIdx := ¬ x.rIdx } = getP x := by
  unfold getR getP
  rcases h : x.rIdx <;> simp [h]

theorem getR_litMr (x : St) (a : MoveSt) (b : Sec) (c : SecState) (d : ℚ) :
    getR { x with mr_move_state := a, mr_section := b, section_state := c, mr_jerk := d }
      = getR x := rfl

theorem getP_litMr (x : St) (a : MoveSt) (b : Sec) (c : SecState) (d : ℚ) :
    getP { x with mr_move_state := a, mr_section := b, section_state := c, mr_jerk := d }
      = getP x := rfl

theorem getR_litGm (x : St) (v : List ℚ) : getR { x with gm_target := v } = getR x := rfl

theorem getP_litGm (x : St) (v : List ℚ) : getP { x with gm_target := v } = getP x := rfl

theorem getR_litGEV (x : St) (v : ℚ) (b : Bool) :
    getR { x with group_entry_velocity := v, rgIdx := b } = getR x := rfl

theorem getP_litGEV (x : St) (v : ℚ) (b : Bool) :
    getP { x with group_entry_velocity := v, rgIdx := b } = getP x := rfl

/-! ### Frame lemmas for the setup stages -/
theorem setupA_position (i : Nat) (s : St) : (alineSetupA i s).position = s.position := by
  simp only [alineSetupA, apply_ite St.position, rpt_position, bufSet_position, ite_self]
theorem setupA_preps (i : Nat) (s : St) : (alineSetupA i s).preps = s.preps := by
  simp only [alineSetupA, apply_ite St.preps, rpt_preps, bufSet_preps, ite_self]
theorem setupA_segment_velocity (i : Nat) (s : St) : (alineSetupA i s).segment_velocity = s.segment_velocity := by
  simp only [alineSetupA, apply_ite St.segment_velocity, rpt_segment_velocity, bufSet_segment_velocity, ite_self]
theorem setupA_motion_state (i : Nat) (s : St) : (alineSetupA i s).motion_state = s.motion_state := by
  simp only [alineSetupA, apply_ite St.motion_state, rpt_motion_state, bufSet_motion_state, ite_self]
theorem setupA_mr_section (i : Nat) (s : St) : (alineSetupA i s).mr_section = Sec.head := by
  simp only [alineSetupA, apply_ite St.mr_section, rpt_mr_section, bufSet_mr_section, ite_self]
theorem setupA_section_state (i : Nat) (s : St) : (alineSetupA i s).section_state = SecState.new := by
  simp only [alineSetupA, apply_ite St.section_state, rpt_section_state, bufSet_section_state, ite_self]
theorem setupA_executed_body_length (i : Nat) (s : St) : (alineSetupA i s).executed_body_length = s.executed_body_length := by
  simp only [alineSetupA, apply_ite St.executed_body_length, rpt_executed_body_length, bufSet_executed_body_length, ite_self]
theorem setupA_exceptions (i : Nat) (s : St) : (alineSetupA i s).exceptions = (if fp_ZERO (bufGet s i).length then s.exceptions + 1 else s.exceptions) := by
  simp only [alineSetupA, apply_ite St.exceptions, rpt_exceptions, bufSet_exceptions]

theorem setupA_getR (i : Nat) (s : St) : getR (alineSetupA i s) = getR s := by
  simp only [alineSetupA, getR_litMr, getR_bufSet, getR_litGm, apply_ite getR,
    getR_rpt, ite_self]

theorem setupA_getP (i : Nat) (s : St) : getP (alineSetupA i s) = getP s := by
  simp only [alineSetupA, getP_litMr, getP_bufSet, getP_litGm, apply_ite getP,
    getP_rpt, ite_self]
theorem setupB_position (s : St) : (alineSetupB s).position = s.position := by
  simp only [alineSetupB, apply_ite St.position, setRG_position, ite_self]
theorem setupB_preps (s : St) : (alineSetupB s).preps = s.preps := by
  simp only [alineSetupB, apply_ite St.preps, setRG_preps, ite_self]
theorem setupB_segment_velocity (s : St) : (alineSetupB s).segment_velocity = s.segment_velocity := by
  simp only [alineSetupB, apply_ite St.segment_velocity, setRG_segment_velocity, ite_self]
theorem setupB_motion_state (s : St) : (alineSetupB s).motion_state = s.motion_state := by
  simp only [alineSetupB, apply_ite St.motion_state, setRG_motion_state, ite_self]
theorem setupB_mr_section (s : St) : (alineSetupB s).mr_section = s.mr_section := by
  simp only [alineSetupB, apply_ite St.mr_section, setRG_mr_section, ite_self]
theorem setupB_section_state (s : St) : (alineSetupB s).section_state = s.section_state := by
  simp only [alineSetupB, apply_ite St.section_state, setRG_section_state, ite_self]
theorem setupB_executed_body_length (s : St) : (alineSetupB s).executed_body_length = s.executed_body_length := by
  simp only [alineSetupB, apply_ite St.executed_body_length, setRG_executed_body_length, ite_self]
theorem setupB_exceptions (s : St) : (alineSetupB s).exceptions = s.exceptions := by
  simp only [alineSetupB, apply_ite St.exceptions, setRG_exceptions, ite_self]

theorem setupB_getR (s : St) : getR (alineSetupB s) = getR s := by
  simp only [alineSetupB, apply_ite getR, getR_setRG, getR_litGEV, ite_self]

theorem setupB_getP (s : St) : getP (alineSetupB s) = getP s := by
  simp only [alineSetupB, apply_ite getP, getP_setRG, getP_litGEV, ite_self]
theorem setupC_position (s : St) : (alineSetupC s).position = s.position := by
  simp only [alineSetupC, setP_position]
theorem setupC_preps (s : St) : (alineSetupC s).preps = s.preps := by
  simp only [alineSetupC, setP_preps]
theorem setupC_segment_velocity (s : St) : (alineSetupC s).segment_velocity = s.segment_velocity := by
  simp only [alineSetupC, setP_segment_velocity]
theorem setupC_motion_state (s : St) : (alineSetupC s).motion_state = s.motion_state := by
  simp only [alineSetupC, setP_motion_state]
theorem setupC_mr_section (s : St) : (alineSetupC s).mr_section = s.mr_section := by
  simp only [alineSetupC, setP_mr_section]
theorem setupC_section_state (s : St) : (alineSetupC s).section_state = s.section_state := by
  simp only [alineSetupC, setP_section_state]
theorem setupC_executed_body_length (s : St) : (alineSetupC s).executed_body_length = s.executed_body_length := by
  simp only [alineSetupC, setP_executed_body_length]
theorem setupC_exceptions (s : St) : (alineSetupC s).exceptions = s.exceptions := by
  simp only [alineSetupC, setP_exceptions]

theorem setupC_getR (s : St) : getR (alineSetupC s) = getP s := by
  simp only [alineSetupC, getR_setP, getR_flip]
theorem setupD_position (i : Nat) (s : St) : (alineSetupD i s).position = s.position := by
  simp only [alineSetupD, apply_ite St.position, bufSet_position, setRG_position, ite_self]
theorem setupD_preps (i : Nat) (s : St) : (alineSetupD i s).preps = s.preps := by
  simp only [alineSetupD, apply_ite St.preps, bufSet_preps, setRG_preps, ite_self]
theorem setupD_segment_velocity (i : Nat) (s : St) : (alineSetupD i s).segment_velocity = s.segment_velocity := by
  simp only [alineSetupD, apply_ite St.segment_velocity, bufSet_segment_velocity, setRG_segment_velocity, ite_self]
theorem setupD_motion_state (i : Nat) (s : St) : (alineSetupD i s).motion_state = s.motion_state := by
  simp only [alineSetupD, apply_ite St.motion_state, bufSet_motion_state, setRG_motion_state, ite_self]
theorem setupD_mr_section (i : Nat) (s : St) : (alineSetupD i s).mr_section = s.mr_section := by
  simp only [alineSetupD, apply_ite St.mr_section, bufSet_mr_section, setRG_mr_section, ite_self]
theorem setupD_section_state (i : Nat) (s : St) : (alineSetupD i s).section_state = s.section_state := by
  simp only [alineSetupD, apply_ite St.section_state, bufSet_section_state, setRG_section_state, ite_self]
theorem setupD_executed_body_length (i : Nat) (s : St) : (alineSetupD i s).executed_body_length = s.executed_body_length := by
  simp only [alineSetupD, apply_ite St.executed_body_length, bufSet_executed_body_length, setRG_executed_body_length, ite_self]
theorem setupD_exceptions (i : Nat) (s : St) : (alineSetupD i s).exceptions = s.exceptions := by
  simp only [alineSetupD, apply_ite St.exceptions, bufSet_exceptions, setRG_exceptions, ite_self]

theorem setupD_getR (i : Nat) (s : St) : getR (alineSetupD i s) = getR s := by
  simp only [alineSetupD, apply_ite getR, getR_bufSet, getR_setRG, ite_self]

/-! ### Frame through the full setup preparation -/


theorem getR_litExec (x : St) (a b : ℚ) :
    getR { x with executed_body_length := a, executed_body_time := b } = getR x := rfl
theorem setupPre_position (i : Nat) (s : St) : (alineSetupPre i s).position = s.position := by
  simp only [alineSetupPre, setupD_position, setupC_position, setupB_position, setupA_position]
theorem setupPre_preps (i : Nat) (s : St) : (alineSetupPre i s).preps = s.preps := by
  simp only [alineSetupPre, setupD_preps, setupC_preps, setupB_preps, setupA_preps]
theorem setupPre_segment_velocity (i : Nat) (s : St) : (alineSetupPre i s).segment_velocity = s.segment_velocity := by
  simp only [alineSetupPre, setupD_segment_velocity, setupC_segment_velocity, setupB_segment_velocity, setupA_segment_velocity]
theorem setupPre_motion_state (i : Nat) (s : St) : (alineSetupPre i s).motion_state = s.motion_state := by
  simp only [alineSetupPre, setupD_motion_state, setupC_motion_state, setupB_motion_state, setupA_motion_state]
theorem setupPre_mr_section (i : Nat) (s : St) : (alineSetupPre i s).mr_section = Sec.head := by
  simp only [alineSetupPre, setupD_mr_section, setupC_mr_section, setupB_mr_section, setupA_mr_section]
theorem setupPre_section_state (i : Nat) (s : St) : (alineSetupPre i s).section_state = SecState.new := by
  simp only [alineSetupPre, setupD_section_state, setupC_section_state, setupB_section_state, setupA_section_state]
theorem setupPre_exceptions (i : Nat) (s : St) : (alineSetupPre i s).exceptions = (if fp_ZERO (bufGet s i).length then s.exceptions + 1 else s.exceptions) := by
  simp only [alineSetupPre, setupD_exceptions, setupC_exceptions, setupB_exceptions, setupA_exceptions]

theorem setupPre_executed (i : Nat) (s : St) :
    (alineSetupPre i s).executed_body_length = 0 := by
  simp only [alineSetupPre]

theorem setupPre_getR (i : Nat) (s : St) : getR (alineSetupPre i s) = getP s := by
  simp only [alineSetupPre, getR_litExec, setupD_getR, setupC_getR, setupB_getP, setupA_getP]

/-! ### The setup result when the merge is the identity -/

theorem getR_congr (x y : St) (h1 : x.rIdx = y.rIdx) (h2 : x.blkA = y.blkA)
    (h3 : x.blkB = y.blkB) : getR x = getR y := by
  unfold getR; rw [h1, h2, h3]

theorem getR_litRun (x : St) (a : MoveSt) :
    getR { x with mr_move_state := a } = getR x := rfl

theorem setupFin_position (i : Nat) (s0 : St) (r2 : BlockRt) :
    (alineSetupFin i s0 r2).position = s0.position := by
  simp only [alineSetupFin, setR_position]

theorem setupFin_preps (i : Nat) (s0 : St) (r2 : BlockRt) :
    (alineSetupFin i s0 r2).preps = s0.preps := by
  simp only [alineSetupFin, setR_preps]

theorem setupFin_segment_velocity (i : Nat) (s0 : St) (r2 : BlockRt) :
    (alineSetupFin i s0 r2).segment_velocity = s0.segment_velocity := by
  simp only [alineSetupFin, setR_segment_velocity]

theorem setupFin_motion_state (i : Nat) (s0 : St) (r2 : BlockRt) :
    (alineSetupFin i s0 r2).motion_state = s0.motion_state := by
  simp only [alineSetupFin, setR_motion_state]

theorem setupFin_mr_section (i : Nat) (s0 : St) (r2 : BlockRt) :
    (alineSetupFin i s0 r2).mr_section = s0.mr_section := by
  simp only [alineSetupFin, setR_mr_section]

theorem setupFin_section_state (i : Nat) (s0 : St) (r2 : BlockRt) :
    (alineSetupFin i s0 r2).section_state = s0.section_state := by
  simp only [alineSetupFin, setR_section_state]

theorem setupFin_executed (i : Nat) (s0 : St) (r2 : BlockRt) :
    (alineSetupFin i s0 r2).executed_body_length = s0.executed_body_length := by
  simp only [alineSetupFin, setR_executed_body_length]

theorem setupFin_exceptions (i : Nat) (s0 : St) (r2 : BlockRt) :
    (alineSetupFin i s0 r2).exceptions = s0.exceptions := by
  simp only [alineSetupFin, setR_exceptions]

theorem setupFin_getR (i : Nat) (s0 : St) (r2 : BlockRt) :
    getR (alineSetupFin i s0 r2) = r2 := by
  have h := getR_congr (alineSetupFin i s0 r2) (setR s0 r2) rfl rfl rfl
  rw [getR_setR] at h
  exact h

set_option maxRecDepth 16384 in
theorem alineSetup_zero (i : Nat) (s : St)
    (hH : (getP s).head_length = 0) (hB : (getP s).body_length = 0)
    (hT : (getP s).tail_length = 0) :
    alineSetup i s = some (alineSetupZ i s) := by
  have hm : mergeShortSections (alineSetupPre i s).entry_velocity
      (getR (alineSetupPre i s)) = some (getR (alineSetupPre i s)) := by
    rw [setupPre_getR]
    exact mergeShortSections_zero _ _ hH hB hT
  unfold alineSetup alineSetupZ
  rw [hm]

theorem setupZ_position (i : Nat) (s : St) :
    (alineSetupZ i s).position = s.position := by
  simp only [alineSetupZ, setupFin_position, setupPre_position]

theorem setupZ_preps (i : Nat) (s : St) : (alineSetupZ i s).preps = s.preps := by
  simp only [alineSetupZ, setupFin_preps, setupPre_preps]

theorem setupZ_segment_velocity (i : Nat) (s : St) :
    (alineSetupZ i s).segment_velocity = s.segment_velocity := by
  simp only [alineSetupZ, setupFin_segment_velocity, setupPre_segment_velocity]

theorem setupZ_motion_state (i : Nat) (s : St) :
    (alineSetupZ i s).motion_state = s.motion_state := by
  simp only [alineSetupZ, setupFin_motion_state, setupPre_motion_state]

theorem setupZ_mr_section (i : Nat) (s : St) :
    (alineSetupZ i s).mr_section = Sec.head := by
  simp only [alineSetupZ, setupFin_mr_section, setupPre_mr_section]

theorem setupZ_section_state (i : Nat) (s : St) :
    (alineSetupZ i s).section_state = SecState.new := by
  simp only [alineSetupZ, setupFin_section_state, setupPre_section_state]

theorem setupZ_executed (i : Nat) (s : St) :
    (alineSetupZ i s).executed_body_length = 0 := by
  simp only [alineSetupZ, setupFin_executed, setupPre_executed]

theorem setupZ_exceptions (i : Nat) (s : St) :
    (alineSetupZ i s).exceptions =
      (if fp_ZERO (bufGet s i).length then s.exceptions + 1 else s.exceptions) := by
  simp only [alineSetupZ, setupFin_exceptions, setupPre_exceptions]

theorem setupZ_getR (i : Nat) (s : St) : getR (alineSetupZ i s) = getP s := by
  simp only [alineSetupZ, setupFin_getR, setupPre_getR]

/-! ### The all-zero section cascade of the aline executor -/

theorem exec_aline_tail_zero (c : Collab) (i : Nat) (x : St)
    (hss : x.section_state = SecState.new)
    (ht : (getR x).tail_length = 0) :
    ∃ y, exec_aline_tail c i x = (Stat.ok, y) ∧ y.position = x.position ∧
      y.preps = x.preps ∧ y.exceptions = x.exceptions := by
  simp only [exec_aline_tail, if_pos hss]
  by_cases hgd : (getRG (bufSet x i fun b => { b with plannable := false })).group_state
      = GroupState.done
  · rw [if_pos hgd]
    have hz2 : fp_ZERO (getR (setRG (bufSet x i fun b => { b with plannable := false })
        { getRG (bufSet x i fun b => { b with plannable := false }) with
          group_state := GroupState.off })).tail_length = true := by
      rw [getR_setRG, getR_bufSet, ht]; exact fp_ZERO_zero
    rw [if_pos hz2]
    refine ⟨_, rfl, ?_, ?_, ?_⟩
    · rw [setRG_position, bufSet_position]
    · rw [setRG_preps, bufSet_preps]
    · rw [setRG_exceptions, bufSet_exceptions]
  · rw [if_neg hgd]
    have hz2 : fp_ZERO (getR (bufSet x i fun b =>
        { b with plannable := false })).tail_length = true := by
      rw [getR_bufSet, ht]; exact fp_ZERO_zero
    rw [if_pos hz2]
    exact ⟨_, rfl, rfl, rfl, rfl⟩

theorem exec_aline_body_zero (c : Collab) (i : Nat) (x : St)
    (hsv : 0 ≤ x.segment_velocity) (hss : x.section_state = SecState.new)
    (hb : (getR x).body_length = 0) (he : x.executed_body_length = 0)
    (ht : (getR x).tail_length = 0) :
    ∃ y, exec_aline_body c i x = some (Stat.ok, y) ∧ y.position = x.position ∧
      y.preps = x.preps ∧ y.exceptions = x.exceptions := by
  obtain ⟨y, hy, p1, p2, p3⟩ :=
    exec_aline_tail_zero c i { x with mr_section := Sec.tail } hss ht
  refine ⟨y, ?_, p1, p2, p3⟩
  have hc1 : ¬ (x.segment_velocity < 0) := not_lt.mpr hsv
  have hc3 : fp_ZERO ((getR x).body_length - x.executed_body_length) = true := by
    rw [hb, he, sub_zero]; exact fp_ZERO_zero
  simp only [exec_aline_body, if_neg hc1, if_pos hss, if_pos hc3, hy]

theorem exec_aline_head_zero (c : Collab) (i : Nat) (x : St)
    (hsv : 0 ≤ x.segment_velocity) (hss : x.section_state = SecState.new)
    (hh : (getR x).head_length = 0) (hb : (getR x).body_length = 0)
    (he : x.executed_body_length = 0) (ht : (getR x).tail_length = 0) :
    ∃ y, exec_aline_head c i x = some (Stat.ok, y) ∧ y.position = x.position ∧
      y.preps = x.preps ∧ y.exceptions = x.exceptions := by
  obtain ⟨y, hy, p1, p2, p3⟩ :=
    exec_aline_body_zero c i { x with mr_section := Sec.body } hsv hss hb he ht
  refine ⟨y, ?_, p1, p2, p3⟩
  have hch : fp_ZERO (getR x).head_length = true := by
    rw [hh]; exact fp_ZERO_zero
  simp only [exec_aline_head, if_pos hss, if_pos hch, hy]

/-! ### Frame through the return-status processing -/

theorem plannable_position (i : Nat) (x : St) :
    (alinePlannable i x).position = x.position := by
  simp only [alinePlannable, apply_ite St.position, bufSet_position, ite_self]

theorem plannable_preps (i : Nat) (x : St) :
    (alinePlannable i x).preps = x.preps := by
  simp only [alinePlannable, apply_ite St.preps, bufSet_preps, ite_self]

theorem plannable_exceptions (i : Nat) (x : St) :
    (alinePlannable i x).exceptions = x.exceptions := by
  simp only [alinePlannable, apply_ite St.exceptions, bufSet_exceptions, ite_self]

theorem holdEnd_position (i : Nat) (st : Stat) (x : St) :
    (alineHoldEnd i st x).position = x.position := by
  simp only [alineHoldEnd, apply_ite St.position, bufSet_position, ite_self]

theorem holdEnd_preps (i : Nat) (st : Stat) (x : St) :
    (alineHoldEnd i st x).preps = x.preps := by
  simp only [alineHoldEnd, apply_ite St.preps, bufSet_preps, ite_self]

theorem holdEnd_exceptions (i : Nat) (st : Stat) (x : St) :
    (alineHoldEnd i st x).exceptions = x.exceptions := by
  simp only [alineHoldEnd, apply_ite St.exceptions, bufSet_exceptions, ite_self]

theorem moveEnd_position (c : Collab) (i : Nat) (x : St) :
    (alineMoveEnd c i x).position = x.position := by
  simp only [alineMoveEnd, apply_ite St.position, setRG_position, ite_self]

theorem moveEnd_preps (c : Collab) (i : Nat) (x : St) :
    (alineMoveEnd c i x).preps = x.preps := by
  simp only [alineMoveEnd, apply_ite St.preps, setRG_preps, ite_self]

theorem moveEnd_exceptions (c : Collab) (i : Nat) (x : St) :
    (alineMoveEnd c i x).exceptions = x.exceptions := by
  simp only [alineMoveEnd, apply_ite St.exceptions, setRG_exceptions, ite_self]

theorem alineFinish_ok (c : Collab) (i : Nat) (t : St) :
    (alineFinish c i Stat.ok t).1 = Stat.ok ∧
    (alineFinish c i Stat.ok t).2.position = t.position ∧
    (alineFinish c i Stat.ok t).2.preps = t.preps ∧
    (alineFinish c i Stat.ok t).2.exceptions = t.exceptions := by
  have hne : ¬ (Stat.ok = Stat.eagain) := by decide
  simp only [alineFinish, if_neg hne]
  refine ⟨?_, ?_, ?_, ?_⟩
  · trivial
  · rw [moveEnd_position, holdEnd_position, plannable_position]
  · rw [moveEnd_preps, holdEnd_preps, plannable_preps]
  · rw [moveEnd_exceptions, holdEnd_exceptions, plannable_exceptions]

/-- Claim C8: a zero-length block that reaches `mp_exec_aline`'s
new-move setup is logged as a planner assertion failure
(`rpt_exception`, one new exception report) and is treated as a no-op:
the call returns `STAT_OK` without emitting any segment
(`st_prep_line` is not called) and without moving the machine
position. -/
theorem C8_zero_length_noop (c : Collab) (i : Nat) (s : St)
    (hmv : (bufGet s i).move_state ≠ MoveSt.off)
    (hmr : s.mr_move_state = MoveSt.off)
    (hmh : s.motion_state ≠ MotionState.hold)
    (hz : fp_ZERO (bufGet s i).length = true)
    (hH : (getP s).head_length = 0) (hB : (getP s).body_length = 0)
    (hT : (getP s).tail_length = 0)
    (hsv : 0 ≤ s.segment_velocity) :
    alineStatus c i s = some Stat.ok ∧
    alinePreps c i s = some s.preps ∧
    alinePosition c i s = some s.position ∧
    alineExceptions c i s = some (s.exceptions + 1) := by
  have hz1 : 0 ≤ ({ alineSetupZ i s with mr_move_state := MoveSt.run }).segment_velocity := by
    simp only [setupZ_segment_velocity]; exact hsv
  have hss1 : ({ alineSetupZ i s with mr_move_state := MoveSt.run }).section_state
      = SecState.new := by
    simp only [setupZ_section_state]
  have hh1 : (getR { alineSetupZ i s with mr_move_state := MoveSt.run }).head_length = 0 := by
    simp only [getR_litRun, setupZ_getR]; exact hH
  have hb1 : (getR { alineSetupZ i s with mr_move_state := MoveSt.run }).body_length = 0 := by
    simp only [getR_litRun, setupZ_getR]; exact hB
  have ht1 : (getR { alineSetupZ i s with mr_move_state := MoveSt.run }).tail_length = 0 := by
    simp only [getR_litRun, setupZ_getR]; exact hT
  have he1 : ({ alineSetupZ i s with mr_move_state := MoveSt.run }).executed_body_length
      = 0 := by
    simp only [setupZ_executed]
  obtain ⟨y, hy, p1, p2, p3⟩ :=
    exec_aline_head_zero c i { alineSetupZ i s with mr_move_state := MoveSt.run }
      hz1 hss1 hh1 hb1 he1 ht1
  have hmh1 : ¬ ((alineSetupZ i s).motion_state = MotionState.hold) := by
    rw [setupZ_motion_state]; exact hmh
  simp only [setupZ_mr_section] at hy
  have hd : alineDispatch c i { alineSetupZ i s with mr_move_state := MoveSt.run }
      = some (Stat.ok, y) := by
    simp only [alineDispatch, setupZ_mr_section, hy]
  have hrun : mp_exec_aline c i s = some (alineFinish c i Stat.ok y) := by
    have hset := alineSetup_zero i s hH hB hT
    simp only [mp_exec_aline, if_neg hmv, if_pos hmr, hset, if_neg hmh1, hd]
  obtain ⟨g1, g2, g3, g4⟩ := alineFinish_ok c i y
  have hzi : (alineSetupZ i s).exceptions = s.exceptions + 1 := by
    rw [setupZ_exceptions, if_pos hz]
  refine ⟨?_, ?_, ?_, ?_⟩
  · simp only [alineStatus, hrun, Option.map_some']
    rw [g1]
  · simp only [alinePreps, hrun, Option.map_some']
    rw [g3, p2, setupZ_preps]
  · simp only [alinePosition, hrun, Option.map_some']
    rw [g2, p1, setupZ_position]
  · simp only [alineExceptions, hrun, Option.map_some']
    rw [g4, p3, hzi]

theorem C8_zero_length_noop_witness :
    alineStatus collab0 0 sZeroLen = some Stat.ok ∧
    alinePreps collab0 0 sZeroLen = some sZeroLen.preps ∧
    alinePosition collab0 0 sZeroLen = some sZeroLen.position ∧
    alineExceptions collab0 0 sZeroLen = some (sZeroLen.exceptions + 1) :=
  C8_zero_length_noop collab0 0 sZeroLen (by decide) rfl (by decide) fp_ZERO_zero
    rfl rfl rfl (by decide)
